import Mathlib

/-!
Shallow embedding of `CoreStitchAuth` (stitch-js-sdk), the client-side
authentication session manager: auth state store, token freshness checker,
authenticated request executor with refresh-and-retry, the
login/link/logout state machine, and the derived device-id accessors.

The asynchronous promise-chained code is embedded as explicit state
passing: every operation maps an `AuthState` to a result
(`Except StitchErr α`) together with the successor state.  External
collaborators (transport, wire decoding, JWT decoding, durable storage,
routes, device info, clock) are a parameter `Env`; the trace of externally
visible effects (network dispatches, refresh-operation entries, storage
writes, auth-event notifications) is accumulated in the state so that
theorems can count operations.
-/

/-- Modelled from the spec: the `AuthInfo` value type (§3).  The class
itself is imported by the source file (`./AuthInfo`), not part of src;
fields follow the spec's data model: optional `userId`/`deviceId`, optional
bearer tokens, logged-in provider identifiers and an opaque profile. -/
structure AuthInfo where
  userId : Option String
  deviceId : Option String
  accessToken : Option String
  refreshToken : Option String
  loggedInProviderType : Option String
  loggedInProviderName : Option String
  userProfile : Option String
deriving Repr, DecidableEq

/-- Modelled from the spec: `AuthInfo.empty()`, the state created at
construction when nothing is stored (all fields absent). -/
def AuthInfo.empty : AuthInfo :=
  ⟨none, none, none, none, none, none, none⟩

/-- Modelled from the spec: the "logged out" variant of an `AuthInfo`
clears all identity and token fields while preserving the device id (§3). -/
def AuthInfo.loggedOut (a : AuthInfo) : AuthInfo :=
  { AuthInfo.empty with deviceId := a.deviceId }

/-- Field-wise preference for the newer (first) value when it is defined. -/
def orOld (newVal oldVal : Option String) : Option String :=
  match newVal with
  | some v => some v
  | none => oldVal

/-- Modelled from the spec: `AuthInfo.merge` combines the current info with
a (possibly partial) newer info, taking each field of the newer info when
it is defined and keeping the old field otherwise (§4.4: "merge the
returned partial auth info into current state"). -/
def AuthInfo.merge (a b : AuthInfo) : AuthInfo :=
  ⟨orOld b.userId a.userId, orOld b.deviceId a.deviceId,
   orOld b.accessToken a.accessToken, orOld b.refreshToken a.refreshToken,
   orOld b.loggedInProviderType a.loggedInProviderType,
   orOld b.loggedInProviderName a.loggedInProviderName,
   orOld b.userProfile a.userProfile⟩

/-- The externally visible user object (`TStitchUser`).  Fields are the
four arguments of the owner-supplied factory; they are `Option` because
the source passes them through unchecked non-null assertions. -/
structure StitchUser where
  id : Option String
  loggedInProviderType : Option String
  loggedInProviderName : Option String
  profile : Option String
deriving Repr, DecidableEq

/-- Models the owner-supplied user factory hook (§6):
`makeUser(id, providerType, providerName, profile) -> User`. -/
def makeUser (id pt pn profile : Option String) : StitchUser :=
  ⟨id, pt, pn, profile⟩

/-- `StitchClientErrorCode` values used by the source. -/
inductive ClientErrorCode
  | mustAuthenticateFirst
  | loggedOutDuringRequest
  | couldNotLoadPersistedAuthInfo
  | couldNotPersistAuthInfo
  | userNoLongerValid
deriving Repr, DecidableEq

/-- `StitchRequestErrorCode` values used by the source. -/
inductive RequestErrorCode
  | decodingError
  | transportError
deriving Repr, DecidableEq

/-- Server-reported error codes; only `invalidSession` is special-cased. -/
inductive ServiceErrorCode
  | invalidSession
  | other (code : String)
deriving Repr, DecidableEq

/-- The `StitchError` hierarchy: client, request and service errors. -/
inductive StitchErr
  | client (c : ClientErrorCode)
  | request (c : RequestErrorCode)
  | service (c : ServiceErrorCode)
deriving Repr, DecidableEq

/-- The check performed by `handleAuthFailure`:
`ex instanceof StitchServiceError && ex.errorCode === InvalidSession`. -/
def isInvalidSession : StitchErr → Bool
  | .service .invalidSession => true
  | _ => false

/-- HTTP methods used by the source. -/
inductive Method
  | GET
  | POST
  | DELETE
deriving Repr, DecidableEq

/-- Body of a login/link request: the credential's material together with
the attached device options (`attachAuthOptions`). -/
structure AuthBody where
  material : String
  optionsDevice : String
deriving Repr, DecidableEq

/-- A prepared outbound request as handed to the transport: method, path,
the bearer token placed in the Authorization header (if any), and body. -/
structure StitchRequest where
  method : Method
  path : String
  authHeader : Option String
  body : Option AuthBody
deriving Repr, DecidableEq

/-- A `StitchAuthRequest` descriptor: method, path, body, the two
authentication flags, and the wall-clock time the request was created. -/
structure StitchAuthRequest where
  method : Method
  path : String
  useRefreshToken : Bool
  shouldRefreshOnFailure : Bool
  startedAt : Nat
  body : Option AuthBody
deriving Repr, DecidableEq

/-- A transport response (only the body is consumed by the source). -/
structure Response where
  body : Option String
deriving Repr, DecidableEq

/-- Externally visible effects, accumulated in the state's trace:
a network dispatch, entry into the refresh operation
(`refreshAccessToken`), a durable-storage write (`writeToStorage`), and an
`onAuthEvent` notification. -/
inductive Event
  | dispatch (r : StitchRequest)
  | refresh
  | storageWrite (info : AuthInfo)
  | authEvent
deriving Repr, DecidableEq

/-- The mutable state of a `CoreStitchAuth` instance (`authInfo` and
`currentUser`) together with the accumulated effect trace. -/
structure AuthState where
  authInfo : AuthInfo
  currentUser : Option StitchUser
  trace : List Event
deriving Repr, DecidableEq

/-- The external collaborators (§6), fixed for a run: the transport's
outcome for each dispatch (as a function of the effect history and the
prepared request), the wire decoders (`ApiAuthInfo.fromJSON ∘ JSON.parse`
and the profile decoder), the JWT issuance-time decoder
(`JWT.fromEncoded(_).issuedAt`, modelled from the spec since the JWT
module is imported), whether durable-storage writes succeed, the device
info, the route provider, and the clock used for `startedAt`. -/
structure Env where
  net : List Event → StitchRequest → Except StitchErr Response
  parseAuthInfo : String → Option AuthInfo
  parseProfile : String → Option String
  decodeJWT : String → Option Nat
  storageOk : Bool
  deviceInfo : String
  sessionRoute : String
  profileRoute : String
  loginRoute : String → String
  linkRoute : String → String
  now : Nat

/-- `isLoggedIn` getter: `this.currentUser !== undefined`. -/
def isLoggedIn (s : AuthState) : Bool :=
  s.currentUser.isSome

/-- `hasDeviceId` getter: the stored device id is defined, non-empty and
not the all-zeros string. -/
def hasDeviceId (a : AuthInfo) : Bool :=
  a.deviceId != none && a.deviceId != some "" &&
    a.deviceId != some "000000000000000000000000"

/-- `deviceId` getter: `undefined` unless `hasDeviceId`, else the stored
device id. -/
def deviceId (a : AuthInfo) : Option String :=
  if hasDeviceId a = false then none else a.deviceId

/-- The request built by `prepareAuthRequest`: the original request with
the refresh token (when `useRefreshToken`) or access token attached as the
Authorization bearer header. -/
def preparedRequest (req : StitchAuthRequest) (s : AuthState) : StitchRequest :=
  { method := req.method, path := req.path,
    authHeader :=
      if req.useRefreshToken then s.authInfo.refreshToken
      else s.authInfo.accessToken,
    body := req.body }

/-- `prepareAuthRequest`: throws `MustAuthenticateFirst` when not logged
in, else attaches the bearer token to the request. -/
def prepareAuthRequest (req : StitchAuthRequest) (s : AuthState) :
    Except StitchErr StitchRequest :=
  if isLoggedIn s = false then .error (.client .mustAuthenticateFirst)
  else .ok (preparedRequest req s)

/-- Appends events to the trace of a state. -/
def pushEvents (s : AuthState) (es : List Event) : AuthState :=
  { s with trace := s.trace ++ es }

/-- `clearAuth`: no-op when not logged in; otherwise replaces `authInfo`
with its logged-out form, writes it to storage (a write failure throws
`CouldNotPersistAuthInfo` before `currentUser` is cleared), then clears
`currentUser` and fires `onAuthEvent`. -/
def clearAuth (env : Env) (s : AuthState) : Except StitchErr Unit × AuthState :=
  if isLoggedIn s = false then (.ok (), s)
  else
    let info := s.authInfo.loggedOut
    let s1 := pushEvents { s with authInfo := info } [.storageWrite info]
    if env.storageOk then
      (.ok (), pushEvents { s1 with currentUser := none } [.authEvent])
    else
      (.error (.client .couldNotPersistAuthInfo), s1)

/-- The session-refresh request built by `refreshAccessToken`:
`withRefreshToken().withPath(sessionRoute).withMethod(POST)`. -/
def sessionRefreshRequest (env : Env) : StitchAuthRequest :=
  { method := .POST, path := env.sessionRoute, useRefreshToken := true,
    shouldRefreshOnFailure := true, startedAt := env.now, body := none }

/-- Termination rank of an authenticated request: requests that use the
refresh token or already had their retry consumed cannot recurse. -/
def reqRank (req : StitchAuthRequest) : Nat :=
  if req.useRefreshToken || !req.shouldRefreshOnFailure then 0 else 1

mutual

/-- `doAuthenticatedRequest`: prepare (may throw `MustAuthenticateFirst`
synchronously), dispatch via the transport, and hand any dispatch failure
to `handleAuthFailure`. -/
def doAuthenticatedRequest (env : Env) (req : StitchAuthRequest)
    (s : AuthState) : Except StitchErr Response × AuthState :=
  match prepareAuthRequest req s with
  | .error e => (.error e, s)
  | .ok r =>
    match env.net s.trace r with
    | .ok resp => (.ok resp, pushEvents s [.dispatch r])
    | .error e => handleAuthFailure env e req (pushEvents s [.dispatch r])
termination_by 4 * reqRank req + 3
decreasing_by
  all_goals simp_all [reqRank]

/-- `handleAuthFailure`: re-throw anything that is not an invalid-session
service error; when the failing request used the refresh token or already
consumed its retry, clear auth (a persist failure there replaces the
error) and re-throw; otherwise run the freshness check and re-issue the
original request with `shouldRefreshOnFailure` forced to false. -/
def handleAuthFailure (env : Env) (ex : StitchErr) (req : StitchAuthRequest)
    (s : AuthState) : Except StitchErr Response × AuthState :=
  if isInvalidSession ex = false then (.error ex, s)
  else if req.useRefreshToken || !req.shouldRefreshOnFailure then
    match clearAuth env s with
    | (.ok _, s1) => (.error ex, s1)
    | (.error e1, s1) => (.error e1, s1)
  else
    match tryRefreshAccessToken env req.startedAt s with
    | (.error e, s1) => (.error e, s1)
    | (.ok _, s1) =>
      doAuthenticatedRequest env { req with shouldRefreshOnFailure := false } s1
termination_by 4 * reqRank req + 2
decreasing_by
  all_goals simp_all [reqRank]

/-- `tryRefreshAccessToken`: throws `LoggedOutDuringRequest` when not
logged in; resolves immediately when the access token decodes as a JWT
whose issuance time is at or after the request's start; otherwise (also
when the token cannot be decoded) performs the refresh operation. -/
def tryRefreshAccessToken (env : Env) (reqStartedAt : Nat) (s : AuthState) :
    Except StitchErr Unit × AuthState :=
  if isLoggedIn s = false then
    (.error (.client .loggedOutDuringRequest), s)
  else
    match s.authInfo.accessToken.bind env.decodeJWT with
    | some issuedAt =>
      if reqStartedAt ≤ issuedAt then (.ok (), s)
      else refreshAccessToken env s
    | none => refreshAccessToken env s
termination_by 5
decreasing_by
  all_goals simp [reqRank]

/-- `refreshAccessToken`: sends a session-route request using the refresh
token; on success decodes the body into a partial `AuthInfo` (a decode
failure throws `DECODING_ERROR` leaving state untouched), merges it into
the current state, and persists it (a write failure throws
`CouldNotPersistAuthInfo`). -/
def refreshAccessToken (env : Env) (s : AuthState) :
    Except StitchErr Unit × AuthState :=
  let s0 := pushEvents s [.refresh]
  match doAuthenticatedRequest env (sessionRefreshRequest env) s0 with
  | (.error e, s1) => (.error e, s1)
  | (.ok resp, s1) =>
    match resp.body.bind env.parseAuthInfo with
    | none => (.error (.request .decodingError), s1)
    | some pinfo =>
      let newInfo := s1.authInfo.merge pinfo
      let s2 := pushEvents { s1 with authInfo := newInfo }
        [.storageWrite newInfo]
      if env.storageOk then (.ok (), s2)
      else (.error (.client .couldNotPersistAuthInfo), s2)
termination_by 4
decreasing_by
  simp [reqRank, sessionRefreshRequest]

end

/-- A `StitchCredential`'s observable data: provider type/name, the
material payload, and the `reusesExistingSession` capability flag. -/
structure CredentialInfo where
  providerType : String
  providerName : String
  material : String
  reusesExistingSession : Bool
deriving Repr, DecidableEq

/-- A credential is either an ordinary provider credential or a
`StitchAuthResponseCredential` carrying server-issued auth info together
with the `asLink` flag. -/
inductive StitchCredential
  | ordinary (info : CredentialInfo)
  | response (info : CredentialInfo) (authInfo : AuthInfo) (asLink : Bool)
deriving Repr, DecidableEq

/-- The provider data of either kind of credential. -/
def StitchCredential.info : StitchCredential → CredentialInfo
  | .ordinary i => i
  | .response i _ _ => i

/-- `prepUser` (run at construction): materializes `currentUser` from the
loaded `authInfo` exactly when `userId` is defined. -/
def prepUser (s : AuthState) : AuthState :=
  match s.authInfo.userId with
  | some uid =>
    { s with currentUser := some (makeUser (some uid)
        s.authInfo.loggedInProviderType s.authInfo.loggedInProviderName
        s.authInfo.userProfile) }
  | none => s

/-- Construction from successfully read storage: absent stored data yields
the empty `AuthInfo`; then `prepUser` runs. -/
def mkAuth (stored : Option AuthInfo) : AuthState :=
  prepUser { authInfo := stored.getD AuthInfo.empty, currentUser := none,
             trace := [] }

/-- The session-route DELETE request built by `doLogout`:
`withRefreshToken().withPath(sessionRoute).withMethod(DELETE)`. -/
def sessionDeleteRequest (env : Env) : StitchAuthRequest :=
  { method := .DELETE, path := env.sessionRoute, useRefreshToken := true,
    shouldRefreshOnFailure := true, startedAt := env.now, body := none }

/-- `doLogout`: a session-route DELETE issued with the refresh token. -/
def doLogout (env : Env) (s : AuthState) : Except StitchErr Unit × AuthState :=
  match doAuthenticatedRequest env (sessionDeleteRequest env) s with
  | (.ok _, s1) => (.ok (), s1)
  | (.error e, s1) => (.error e, s1)

/-- `logoutInternal`: no-op when not logged in; otherwise issues the
session-delete request and, whether it succeeds or fails, clears local
auth state (only a `clearAuth` failure propagates). -/
def logoutInternal (env : Env) (s : AuthState) :
    Except StitchErr Unit × AuthState :=
  if isLoggedIn s = false then (.ok (), s)
  else
    match doLogout env s with
    | (.ok _, s1) => clearAuth env s1
    | (.error _, s1) => clearAuth env s1

/-- The profile-route GET request built by `doGetUserProfile`. -/
def profileRequest (env : Env) : StitchAuthRequest :=
  { method := .GET, path := env.profileRoute, useRefreshToken := false,
    shouldRefreshOnFailure := true, startedAt := env.now, body := none }

/-- `doGetUserProfile`: a profile-route GET issued as an authenticated
request; Stitch errors are re-thrown, a body-decoding failure is wrapped
as `DECODING_ERROR`. -/
def doGetUserProfile (env : Env) (s : AuthState) :
    Except StitchErr String × AuthState :=
  match doAuthenticatedRequest env (profileRequest env) s with
  | (.error e, s1) => (.error e, s1)
  | (.ok resp, s1) =>
    match resp.body.bind env.parseProfile with
    | some profile => (.ok profile, s1)
    | none => (.error (.request .decodingError), s1)

/-- The merged provisional `AuthInfo` set by `processLogin` before the
profile request: the response's identity and tokens merged over the
current info, with the credential's provider identifiers and no profile. -/
def provisionalInfo (cred : CredentialInfo) (newAuthInfo : AuthInfo)
    (s : AuthState) : AuthInfo :=
  s.authInfo.merge
    ⟨newAuthInfo.userId, newAuthInfo.deviceId, newAuthInfo.accessToken,
     newAuthInfo.refreshToken, some cred.providerType,
     some cred.providerName, none⟩

/-- The provisional state set by `processLogin`: the provisional info is
installed and a provisional user (profile undefined) is materialized so
the profile request can be made as an authenticated call. -/
def provisionalState (cred : CredentialInfo) (newAuthInfo : AuthInfo)
    (s : AuthState) : AuthState :=
  let ni := provisionalInfo cred newAuthInfo s
  { s with authInfo := ni,
           currentUser := some (makeUser ni.userId (some cred.providerType)
             (some cred.providerName) none) }

/-- The rollback handler of `processLogin`'s catch: a failed link restores
the previous `AuthInfo` and user; a failed fresh login clears auth (a
`clearAuth` persist failure replaces the propagated error). -/
def processLoginRollback (env : Env) (asLinkRequest : Bool)
    (oldInfo : AuthInfo) (oldUser : Option StitchUser) (err : StitchErr)
    (s : AuthState) : Except StitchErr StitchUser × AuthState :=
  if asLinkRequest then
    (.error err, { s with authInfo := oldInfo, currentUser := oldUser })
  else
    match clearAuth env s with
    | (.ok _, s1) => (.error err, s1)
    | (.error e1, s1) => (.error e1, s1)

/-- `processLogin`: preserve the old info and user, install the
provisional state, fetch the profile; on success merge the profile in,
persist, and materialize the final user (the commit point); on any
failure of the fetch or of the persist, run the rollback handler and
propagate. -/
def processLogin (env : Env) (cred : CredentialInfo) (newAuthInfo : AuthInfo)
    (asLinkRequest : Bool) (s : AuthState) :
    Except StitchErr StitchUser × AuthState :=
  let oldInfo := s.authInfo
  let oldUser := s.currentUser
  let s1 := provisionalState cred newAuthInfo s
  match doGetUserProfile env s1 with
  | (.error err, s2) =>
    processLoginRollback env asLinkRequest oldInfo oldUser err s2
  | (.ok profile, s2) =>
    let ni := provisionalInfo cred newAuthInfo s
    let finalInfo := ni.merge
      ⟨ni.userId, ni.deviceId, ni.accessToken, ni.refreshToken,
       some cred.providerType, some cred.providerName, some profile⟩
    let s3 := pushEvents s2 [.storageWrite finalInfo]
    if env.storageOk then
      let u := makeUser finalInfo.userId (some cred.providerType)
        (some cred.providerName) (some profile)
      (.ok u, { s3 with authInfo := finalInfo, currentUser := some u })
    else
      processLoginRollback env asLinkRequest oldInfo oldUser
        (.client .couldNotPersistAuthInfo) s3

/-- `processLoginResponse`: an absent or undecodable response body is
wrapped as `DECODING_ERROR`; otherwise the decoded auth info is handed to
`processLogin`. -/
def processLoginResponse (env : Env) (cred : CredentialInfo)
    (response : Response) (asLinkRequest : Bool) (s : AuthState) :
    Except StitchErr StitchUser × AuthState :=
  match response.body.bind env.parseAuthInfo with
  | none => (.error (.request .decodingError), s)
  | some info => processLogin env cred info asLinkRequest s

/-- The body sent by `doLoginRequest`: the credential's material with the
device options attached (`attachAuthOptions`). -/
def loginBody (env : Env) (cred : CredentialInfo) : AuthBody :=
  { material := cred.material, optionsDevice := env.deviceInfo }

/-- The link request built by `doLoginRequest` when `asLinkRequest`:
a POST to the provider's link route carrying the credential material,
issued as an authenticated request. -/
def linkRequest (env : Env) (cred : CredentialInfo) : StitchAuthRequest :=
  { method := .POST, path := env.linkRoute cred.providerName,
    useRefreshToken := false, shouldRefreshOnFailure := true,
    startedAt := env.now, body := some (loginBody env cred) }

/-- `doLoginRequest`: POST to the provider's link route as an
authenticated request when `asLinkRequest`, else to the provider's login
route as a plain (unauthenticated) request. -/
def doLoginRequest (env : Env) (cred : CredentialInfo) (asLinkRequest : Bool)
    (s : AuthState) : Except StitchErr Response × AuthState :=
  if asLinkRequest then
    doAuthenticatedRequest env (linkRequest env cred) s
  else
    let r : StitchRequest :=
      { method := .POST, path := env.loginRoute cred.providerName,
        authHeader := none, body := some (loginBody env cred) }
    (env.net s.trace r, pushEvents s [.dispatch r])

/-- `doLogin`: the login/link request followed by `processLoginResponse`;
`onAuthEvent` fires after a successful commit. -/
def doLogin (env : Env) (cred : CredentialInfo) (asLinkRequest : Bool)
    (s : AuthState) : Except StitchErr StitchUser × AuthState :=
  match doLoginRequest env cred asLinkRequest s with
  | (.error e, s1) => (.error e, s1)
  | (.ok resp, s1) =>
    match processLoginResponse env cred resp asLinkRequest s1 with
    | (.error e, s2) => (.error e, s2)
    | (.ok user, s2) => (.ok user, pushEvents s2 [.authEvent])

/-- `loginWithCredentialInternal`: a response credential goes straight to
`processLogin`; when not logged in, a full login is performed; when the
credential reuses the existing session for the same provider type, the
current user is returned with no network call; otherwise the current
session is logged out (its outcome discarded) and a full login follows. -/
def loginWithCredentialInternal (env : Env) (credential : StitchCredential)
    (s : AuthState) : Except StitchErr StitchUser × AuthState :=
  match credential with
  | .response info authInfo asLink => processLogin env info authInfo asLink s
  | .ordinary info =>
    if isLoggedIn s = false then doLogin env info false s
    else
      match s.currentUser with
      | some u =>
        if info.reusesExistingSession &&
            (some info.providerType == u.loggedInProviderType) then
          (.ok u, s)
        else
          doLogin env info false (logoutInternal env s).2
      | none => doLogin env info false s

/-- `linkUserWithCredentialInternal`: rejects with `UserNoLongerValid`
when a current user exists and the supplied user's id differs; otherwise
performs the login flagged as a link. -/
def linkUserWithCredentialInternal (env : Env) (user : StitchUser)
    (credential : StitchCredential) (s : AuthState) :
    Except StitchErr StitchUser × AuthState :=
  match s.currentUser with
  | some cu =>
    if user.id ≠ cu.id then
      (.error (.client .userNoLongerValid), s)
    else
      doLogin env credential.info true s
  | none => doLogin env credential.info true s

/-- Number of refresh-operation entries in a trace. -/
def countRefreshes (t : List Event) : Nat :=
  t.countP (fun e => e == Event.refresh)

/-- The three-way state invariant of the session manager: the current
user is defined exactly when `authInfo.userId` is defined. -/
def authInv (s : AuthState) : Prop :=
  s.currentUser.isSome = s.authInfo.userId.isSome

/-- Unfolding of `handleAuthFailure` for requests that cannot retry
(refresh-token requests or requests whose retry was already consumed). -/
theorem handleAuthFailure_rank0 (env : Env) (ex : StitchErr)
    (req : StitchAuthRequest) (s : AuthState)
    (h : (req.useRefreshToken || !req.shouldRefreshOnFailure) = true) :
    handleAuthFailure env ex req s =
      if isInvalidSession ex = false then (.error ex, s)
      else
        match clearAuth env s with
        | (.ok _, s1) => (.error ex, s1)
        | (.error e1, s1) => (.error e1, s1) := by
  rw [handleAuthFailure]
  simp [h]

/-- Full characterization of `doAuthenticatedRequest` on requests that
cannot retry: dispatch once; an invalid-session failure clears auth and
re-raises (a persist failure replaces the error); anything else
propagates unchanged. -/
theorem doAuthenticatedRequest_rank0 (env : Env) (req : StitchAuthRequest)
    (s : AuthState)
    (h : (req.useRefreshToken || !req.shouldRefreshOnFailure) = true) :
    doAuthenticatedRequest env req s =
      if isLoggedIn s = false then (.error (.client .mustAuthenticateFirst), s)
      else
        match env.net s.trace (preparedRequest req s) with
        | .ok resp => (.ok resp, pushEvents s [.dispatch (preparedRequest req s)])
        | .error e =>
          if isInvalidSession e = false then
            (.error e, pushEvents s [.dispatch (preparedRequest req s)])
          else
            match clearAuth env (pushEvents s [.dispatch (preparedRequest req s)]) with
            | (.ok _, s1) => (.error e, s1)
            | (.error e1, s1) => (.error e1, s1) := by
  rw [doAuthenticatedRequest]
  by_cases hl : isLoggedIn s = false
  · simp [prepareAuthRequest, hl]
  · cases hnet : env.net s.trace (preparedRequest req s) with
    | ok resp => simp [prepareAuthRequest, hl, hnet]
    | error e => simp [prepareAuthRequest, hl, hnet, handleAuthFailure_rank0, h]

/-- Counting refresh entries distributes over trace concatenation. -/
theorem countRefreshes_append (t u : List Event) :
    countRefreshes (t ++ u) = countRefreshes t + countRefreshes u := by
  simp [countRefreshes, List.countP_append]

/-- `clearAuth` performs no refresh operation. -/
theorem clearAuth_countRefreshes (env : Env) (s : AuthState) :
    countRefreshes (clearAuth env s).2.trace = countRefreshes s.trace := by
  unfold clearAuth
  by_cases h : isLoggedIn s = false
  · simp [h]
  · by_cases hst : env.storageOk
    <;> simp [h, hst, pushEvents, countRefreshes, List.countP_append]

/-- A request that cannot retry performs no refresh operation. -/
theorem doAuthenticatedRequest_rank0_countRefreshes (env : Env)
    (req : StitchAuthRequest) (s : AuthState)
    (h : (req.useRefreshToken || !req.shouldRefreshOnFailure) = true) :
    countRefreshes (doAuthenticatedRequest env req s).2.trace =
      countRefreshes s.trace := by
  rw [doAuthenticatedRequest_rank0 env req s h]
  by_cases hl : isLoggedIn s = false
  · simp [hl]
  · cases hnet : env.net s.trace (preparedRequest req s) with
    | ok resp => simp [hl, hnet, pushEvents, countRefreshes, List.countP_append]
    | error e =>
      by_cases hinv : isInvalidSession e = false
      · simp [hl, hnet, hinv, pushEvents, countRefreshes, List.countP_append]
      · have hc := clearAuth_countRefreshes env
          (pushEvents s [.dispatch (preparedRequest req s)])
        cases hca : clearAuth env (pushEvents s [.dispatch (preparedRequest req s)]) with
        | mk r s1 =>
          rw [hca] at hc
          cases r <;>
            simp_all [pushEvents, countRefreshes, List.countP_append]

/-- `refreshAccessToken` performs exactly one refresh operation. -/
theorem refreshAccessToken_countRefreshes (env : Env) (s : AuthState) :
    countRefreshes (refreshAccessToken env s).2.trace =
      countRefreshes s.trace + 1 := by
  rw [refreshAccessToken]
  have h0 : countRefreshes (pushEvents s [.refresh]).trace =
      countRefreshes s.trace + 1 := by
    simp [pushEvents, countRefreshes, List.countP_append]
  have hr := doAuthenticatedRequest_rank0_countRefreshes env
    (sessionRefreshRequest env) (pushEvents s [.refresh]) (by simp [sessionRefreshRequest])
  rw [h0] at hr
  cases hd : doAuthenticatedRequest env (sessionRefreshRequest env)
      (pushEvents s [.refresh]) with
  | mk r s1 =>
    rw [hd] at hr
    cases r with
    | error e => simpa using hr
    | ok resp =>
      cases hp : resp.body.bind env.parseAuthInfo with
      | none => simpa [hp] using hr
      | some pinfo =>
        by_cases hst : env.storageOk <;>
          simp_all [hp, hst, pushEvents, countRefreshes, List.countP_append]

/-- The freshness check performs at most one refresh operation. -/
theorem tryRefreshAccessToken_countRefreshes (env : Env) (t : Nat)
    (s : AuthState) :
    countRefreshes (tryRefreshAccessToken env t s).2.trace ≤
      countRefreshes s.trace + 1 := by
  rw [tryRefreshAccessToken]
  by_cases hl : isLoggedIn s = false
  · simp [hl]
  · cases hj : s.authInfo.accessToken.bind env.decodeJWT with
    | some issuedAt =>
      by_cases hle : t ≤ issuedAt
      · simp [hl, hj, hle]
      · simp only [hl, hj, hle, if_false, ite_false]
        exact Nat.le_of_eq (refreshAccessToken_countRefreshes env s)
    | none =>
      simp only [hl, hj]
      exact Nat.le_of_eq (refreshAccessToken_countRefreshes env s)

/-- Unfolding of `handleAuthFailure` for a request that may still retry. -/
theorem handleAuthFailure_rank1 (env : Env) (ex : StitchErr)
    (req : StitchAuthRequest) (s : AuthState)
    (h1 : req.useRefreshToken = false) (h2 : req.shouldRefreshOnFailure = true) :
    handleAuthFailure env ex req s =
      if isInvalidSession ex = false then (.error ex, s)
      else
        match tryRefreshAccessToken env req.startedAt s with
        | (.error e, s1) => (.error e, s1)
        | (.ok _, s1) =>
          doAuthenticatedRequest env { req with shouldRefreshOnFailure := false } s1 := by
  rw [handleAuthFailure]
  simp [h1, h2]

/-- Full characterization of `doAuthenticatedRequest` on a request that
may still retry: dispatch once; on an invalid-session failure run the
freshness check and, when it completes, re-issue the original request with
`shouldRefreshOnFailure` forced to false; anything else propagates. -/
theorem doAuthenticatedRequest_rank1 (env : Env) (req : StitchAuthRequest)
    (s : AuthState)
    (h1 : req.useRefreshToken = false) (h2 : req.shouldRefreshOnFailure = true) :
    doAuthenticatedRequest env req s =
      if isLoggedIn s = false then (.error (.client .mustAuthenticateFirst), s)
      else
        match env.net s.trace (preparedRequest req s) with
        | .ok resp => (.ok resp, pushEvents s [.dispatch (preparedRequest req s)])
        | .error e =>
          if isInvalidSession e = false then
            (.error e, pushEvents s [.dispatch (preparedRequest req s)])
          else
            match tryRefreshAccessToken env req.startedAt
                (pushEvents s [.dispatch (preparedRequest req s)]) with
            | (.error e2, s1) => (.error e2, s1)
            | (.ok _, s1) =>
              doAuthenticatedRequest env
                { req with shouldRefreshOnFailure := false } s1 := by
  rw [doAuthenticatedRequest]
  by_cases hl : isLoggedIn s = false
  · simp [prepareAuthRequest, hl]
  · cases hnet : env.net s.trace (preparedRequest req s) with
    | ok resp => simp [prepareAuthRequest, hl, hnet]
    | error e =>
      simp [prepareAuthRequest, hl, hnet, handleAuthFailure_rank1, h1, h2]

/-- Any single authenticated call performs at most one refresh operation. -/
theorem doAuthenticatedRequest_countRefreshes (env : Env)
    (req : StitchAuthRequest) (s : AuthState) :
    countRefreshes (doAuthenticatedRequest env req s).2.trace ≤
      countRefreshes s.trace + 1 := by
  by_cases h : (req.useRefreshToken || !req.shouldRefreshOnFailure) = true
  · exact Nat.le_of_eq (doAuthenticatedRequest_rank0_countRefreshes env req s h) |>.trans
      (Nat.le_succ _)
  · have h1 : req.useRefreshToken = false := by
      cases hu : req.useRefreshToken <;> simp_all
    have h2 : req.shouldRefreshOnFailure = true := by
      cases hu : req.shouldRefreshOnFailure <;> simp_all
    rw [doAuthenticatedRequest_rank1 env req s h1 h2]
    by_cases hl : isLoggedIn s = false
    · simp [hl]
    · cases hnet : env.net s.trace (preparedRequest req s) with
      | ok resp =>
        simp [hl, hnet, pushEvents, countRefreshes, List.countP_append]
      | error e =>
        by_cases hinv : isInvalidSession e = false
        · simp [hl, hnet, hinv, pushEvents, countRefreshes, List.countP_append]
        · have htr := tryRefreshAccessToken_countRefreshes env req.startedAt
            (pushEvents s [.dispatch (preparedRequest req s)])
          have hpe : countRefreshes (pushEvents s
              [.dispatch (preparedRequest req s)]).trace = countRefreshes s.trace := by
            simp [pushEvents, countRefreshes, List.countP_append]
          rw [hpe] at htr
          cases htry : tryRefreshAccessToken env req.startedAt
              (pushEvents s [.dispatch (preparedRequest req s)]) with
          | mk r s1 =>
            rw [htry] at htr
            cases r with
            | error e2 =>
              simp only [hl, hnet, hinv, htry, if_false, ite_false]
              simp [hl, hnet, hinv, htry]
              exact htr
            | ok u =>
              have hretry := doAuthenticatedRequest_rank0_countRefreshes env
                { req with shouldRefreshOnFailure := false } s1 (by simp)
              simp [hl, hnet, hinv, htry, hretry]
              exact htr

@[simp] theorem pushEvents_currentUser (s : AuthState) (es : List Event) :
    (pushEvents s es).currentUser = s.currentUser := rfl

@[simp] theorem pushEvents_authInfo (s : AuthState) (es : List Event) :
    (pushEvents s es).authInfo = s.authInfo := rfl

@[simp] theorem pushEvents_trace (s : AuthState) (es : List Event) :
    (pushEvents s es).trace = s.trace ++ es := rfl

@[simp] theorem isLoggedIn_pushEvents (s : AuthState) (es : List Event) :
    isLoggedIn (pushEvents s es) = isLoggedIn s := rfl

/-- C10: `hasDeviceId` holds exactly when the stored device id is defined,
non-empty and not the all-zeros string; the `deviceId` accessor returns
the stored device id when `hasDeviceId` holds and `undefined` otherwise,
so a persisted all-zeros device id is reported as no device id. -/
theorem hasDeviceId_deviceId_spec (a : AuthInfo) :
    (hasDeviceId a = true ↔
      (a.deviceId ≠ none ∧ a.deviceId ≠ some "" ∧
        a.deviceId ≠ some "000000000000000000000000"))
    ∧ deviceId a = (if hasDeviceId a = true then a.deviceId else none)
    ∧ deviceId { a with deviceId := some "000000000000000000000000" } = none := by
  refine ⟨?_, ?_, ?_⟩
  · simp [hasDeviceId, bne_iff_ne, and_assoc]
  · by_cases h : hasDeviceId a = true
    · simp [deviceId, h]
    · simp only [Bool.not_eq_true] at h
      simp [deviceId, h]
  · simp [deviceId, hasDeviceId]

/-- C3: for a logged-in state and a request start time, the freshness
check resolves immediately, with no state change and no refresh, exactly
when the access token decodes as a JWT whose issuance time is at or after
the request's `startedAt`; when the issuance time is strictly earlier, or
the token cannot be decoded, it performs exactly one refresh operation. -/
theorem tryRefreshAccessToken_freshness (env : Env) (t : Nat) (s : AuthState)
    (hl : isLoggedIn s = true) :
    (∀ issuedAt, s.authInfo.accessToken.bind env.decodeJWT = some issuedAt →
      t ≤ issuedAt → tryRefreshAccessToken env t s = (.ok (), s))
    ∧ (∀ issuedAt, s.authInfo.accessToken.bind env.decodeJWT = some issuedAt →
      issuedAt < t →
      tryRefreshAccessToken env t s = refreshAccessToken env s ∧
        countRefreshes (tryRefreshAccessToken env t s).2.trace =
          countRefreshes s.trace + 1)
    ∧ (s.authInfo.accessToken.bind env.decodeJWT = none →
      tryRefreshAccessToken env t s = refreshAccessToken env s ∧
        countRefreshes (tryRefreshAccessToken env t s).2.trace =
          countRefreshes s.trace + 1) := by
  have hl' : (isLoggedIn s = false) = False := by simp [hl]
  refine ⟨?_, ?_, ?_⟩
  · intro issuedAt hj hle
    rw [tryRefreshAccessToken]
    simp [hl', hj, hle]
  · intro issuedAt hj hlt
    have he : tryRefreshAccessToken env t s = refreshAccessToken env s := by
      rw [tryRefreshAccessToken]
      simp [hl', hj, Nat.not_le_of_lt hlt]
    exact ⟨he, by rw [he]; exact refreshAccessToken_countRefreshes env s⟩
  · intro hj
    have he : tryRefreshAccessToken env t s = refreshAccessToken env s := by
      rw [tryRefreshAccessToken]
      simp [hl', hj]
    exact ⟨he, by rw [he]; exact refreshAccessToken_countRefreshes env s⟩

/-- C1: an authenticated request with `useRefreshToken = false` and
`shouldRefreshOnFailure = true` whose dispatch fails with invalid session
runs the freshness check and, when it completes, re-issues the original
request with `shouldRefreshOnFailure` forced to false; the whole call
performs at most one refresh; any request whose retry was already
consumed and which fails with invalid session clears authentication state
(given the cleared state persists) and propagates the error, performing
no refresh at all. -/
theorem doAuthenticatedRequest_retry_bound (env : Env)
    (req : StitchAuthRequest) (s : AuthState)
    (h1 : req.useRefreshToken = false)
    (h2 : req.shouldRefreshOnFailure = true)
    (hl : isLoggedIn s = true)
    (hfail : env.net s.trace (preparedRequest req s) =
      .error (.service .invalidSession)) :
    (doAuthenticatedRequest env req s =
      match tryRefreshAccessToken env req.startedAt
          (pushEvents s [.dispatch (preparedRequest req s)]) with
      | (.error e2, s1) => (.error e2, s1)
      | (.ok _, s1) =>
        doAuthenticatedRequest env
          { req with shouldRefreshOnFailure := false } s1)
    ∧ countRefreshes (doAuthenticatedRequest env req s).2.trace ≤
        countRefreshes s.trace + 1
    ∧ (∀ req2 : StitchAuthRequest, ∀ s2 : AuthState,
        req2.useRefreshToken = false → req2.shouldRefreshOnFailure = false →
        isLoggedIn s2 = true → env.storageOk = true →
        env.net s2.trace (preparedRequest req2 s2) =
          .error (.service .invalidSession) →
        (doAuthenticatedRequest env req2 s2).1 =
            .error (.service .invalidSession) ∧
          (doAuthenticatedRequest env req2 s2).2.currentUser = none ∧
          (doAuthenticatedRequest env req2 s2).2.authInfo =
            s2.authInfo.loggedOut ∧
          countRefreshes (doAuthenticatedRequest env req2 s2).2.trace =
            countRefreshes s2.trace) := by
  have hl' : (isLoggedIn s = false) = False := by simp [hl]
  refine ⟨?_, doAuthenticatedRequest_countRefreshes env req s, ?_⟩
  · rw [doAuthenticatedRequest_rank1 env req s h1 h2]
    simp [hl', hfail, isInvalidSession]
  · intro req2 s2 hru hrf hl2 hst hfail2
    have hrank : (req2.useRefreshToken || !req2.shouldRefreshOnFailure) = true := by
      simp [hru, hrf]
    have hcount := doAuthenticatedRequest_rank0_countRefreshes env req2 s2 hrank
    have heq : doAuthenticatedRequest env req2 s2 =
        (.error (.service .invalidSession),
         pushEvents { (pushEvents s2 [.dispatch (preparedRequest req2 s2)]) with
            currentUser := none, authInfo := s2.authInfo.loggedOut }
           [.storageWrite s2.authInfo.loggedOut, .authEvent]) := by
      rw [doAuthenticatedRequest_rank0 env req2 s2 hrank]
      have hl2' : (isLoggedIn s2 = false) = False := by simp [hl2]
      have hcu : s2.currentUser.isSome = true := hl2
      simp only [hl2', if_false]
      rw [hfail2]
      simp [isInvalidSession, clearAuth, isLoggedIn, hcu, hst, pushEvents]
    refine ⟨by rw [heq], by rw [heq]; rfl, by rw [heq]; rfl, hcount⟩

/-- `AuthInfo.loggedOut` is idempotent (it only keeps the device id). -/
theorem loggedOut_idem (a : AuthInfo) :
    a.loggedOut.loggedOut = a.loggedOut := rfl

/-- `clearAuth` on a logged-out state is a no-op. -/
theorem clearAuth_loggedOut (env : Env) (s : AuthState)
    (h : isLoggedIn s = false) : clearAuth env s = (.ok (), s) := by
  unfold clearAuth
  simp [h]

/-- Characterization of `clearAuth` on a logged-in state. -/
theorem clearAuth_loggedIn (env : Env) (s : AuthState)
    (h : isLoggedIn s = true) :
    clearAuth env s =
      if env.storageOk then
        (.ok (), { authInfo := s.authInfo.loggedOut, currentUser := none,
                   trace := s.trace ++
                     [.storageWrite s.authInfo.loggedOut, .authEvent] })
      else
        (.error (.client .couldNotPersistAuthInfo),
         { authInfo := s.authInfo.loggedOut, currentUser := s.currentUser,
           trace := s.trace ++ [.storageWrite s.authInfo.loggedOut] }) := by
  unfold clearAuth
  have h' : (isLoggedIn s = false) = False := by simp [h]
  by_cases hst : env.storageOk <;> simp [h', hst, pushEvents]

/-- On a logged-in state, `logoutInternal` always runs `clearAuth` on the
state left by the session-delete request, whatever its outcome. -/
theorem logoutInternal_eq (env : Env) (s : AuthState)
    (hl : isLoggedIn s = true) :
    logoutInternal env s = clearAuth env (doLogout env s).2 := by
  unfold logoutInternal
  have hl' : (isLoggedIn s = false) = False := by simp [hl]
  rcases h : doLogout env s with ⟨r, s1⟩
  cases r <;> simp [hl', h]

/-- After `doLogout` from a logged-in state, the state is in one of three
shapes: untouched (modulo trace), fully cleared (storage succeeded during
an internal `clearAuth`), or cleared-in-memory-only with the original
user still set (storage failed during an internal `clearAuth`). -/
theorem doLogout_after (env : Env) (s : AuthState)
    (hl : isLoggedIn s = true) :
    ((doLogout env s).2.authInfo = s.authInfo ∧
       (doLogout env s).2.currentUser = s.currentUser ∧
       countRefreshes (doLogout env s).2.trace = countRefreshes s.trace)
    ∨ (env.storageOk = true ∧
       (doLogout env s).2.authInfo = s.authInfo.loggedOut ∧
       (doLogout env s).2.currentUser = none ∧
       Event.storageWrite s.authInfo.loggedOut ∈ (doLogout env s).2.trace ∧
       countRefreshes (doLogout env s).2.trace = countRefreshes s.trace)
    ∨ (env.storageOk = false ∧
       (doLogout env s).2.authInfo = s.authInfo.loggedOut ∧
       (doLogout env s).2.currentUser = s.currentUser ∧
       Event.storageWrite s.authInfo.loggedOut ∈ (doLogout env s).2.trace ∧
       countRefreshes (doLogout env s).2.trace = countRefreshes s.trace) := by
  have hl' : (isLoggedIn s = false) = False := by simp [hl]
  have hrank : ((sessionDeleteRequest env).useRefreshToken ||
      !(sessionDeleteRequest env).shouldRefreshOnFailure) = true := rfl
  unfold doLogout
  rw [doAuthenticatedRequest_rank0 env (sessionDeleteRequest env) s hrank]
  simp only [hl', if_false]
  cases hnet : env.net s.trace (preparedRequest (sessionDeleteRequest env) s) with
  | ok resp =>
    left
    simp [pushEvents, countRefreshes, List.countP_append]
  | error e =>
    by_cases hinv : isInvalidSession e = false
    · left
      simp [hinv, pushEvents, countRefreshes, List.countP_append]
    · have hinv' : isInvalidSession e = true := by
        cases hh : isInvalidSession e <;> simp_all
      have hclear := clearAuth_loggedIn env
        (pushEvents s [.dispatch (preparedRequest (sessionDeleteRequest env) s)]) hl
      by_cases hst : env.storageOk
      · right; left
        rw [hclear]
        simp [hinv', hst, pushEvents, countRefreshes, List.countP_append]
      · right; right
        have hst' : env.storageOk = false := by simp [hst]
        rw [hclear]
        simp [hinv', hst', pushEvents, countRefreshes, List.countP_append]

/-- `logoutInternal` on a logged-out state resolves immediately with no
effect. -/
theorem logoutInternal_noop (env : Env) (s : AuthState)
    (h : isLoggedIn s = false) : logoutInternal env s = (.ok (), s) := by
  unfold logoutInternal
  simp [h]

/-- Full characterization of `logoutInternal` from a logged-in state:
when storage writes succeed it returns success with auth fully cleared and
the cleared info written; when they fail it reports
`CouldNotPersistAuthInfo`, with the cleared info in memory, the user still
materialized, and the write attempted. -/
theorem logoutInternal_char (env : Env) (s : AuthState)
    (hl : isLoggedIn s = true) :
    (env.storageOk = true →
      (logoutInternal env s).1 = .ok () ∧
      (logoutInternal env s).2.authInfo = s.authInfo.loggedOut ∧
      (logoutInternal env s).2.currentUser = none ∧
      Event.storageWrite s.authInfo.loggedOut ∈ (logoutInternal env s).2.trace)
    ∧ (env.storageOk = false →
      (logoutInternal env s).1 = .error (.client .couldNotPersistAuthInfo) ∧
      (logoutInternal env s).2.authInfo = s.authInfo.loggedOut ∧
      (logoutInternal env s).2.currentUser = s.currentUser ∧
      Event.storageWrite s.authInfo.loggedOut ∈ (logoutInternal env s).2.trace) := by
  rw [logoutInternal_eq env s hl]
  rcases doLogout_after env s hl with
    ⟨ha, hu, _⟩ | ⟨hst, ha, hu, hmem, _⟩ | ⟨hst, ha, hu, hmem, _⟩
  · have hlog1 : isLoggedIn (doLogout env s).2 = true := by
      simp [isLoggedIn, hu]
      exact hl
    rw [clearAuth_loggedIn env _ hlog1]
    constructor
    · intro hst
      simp [hst, ha, hu, List.mem_append]
    · intro hst
      simp [hst, ha, hu, List.mem_append]
  · have hlog1 : isLoggedIn (doLogout env s).2 = false := by
      simp [isLoggedIn, hu]
    rw [clearAuth_loggedOut env _ hlog1]
    constructor
    · intro _
      exact ⟨rfl, ha, hu, hmem⟩
    · intro hst'
      rw [hst] at hst'
      exact absurd hst' (by simp)
  · have hlog1 : isLoggedIn (doLogout env s).2 = true := by
      simp [isLoggedIn, hu]
      exact hl
    rw [clearAuth_loggedIn env _ hlog1]
    constructor
    · intro hst'
      rw [hst] at hst'
      exact absurd hst' (by simp)
    · intro _
      have hst' : env.storageOk = false := hst
      simp [hst', ha, hu, loggedOut_idem, List.mem_append, hmem]

/-- A default environment for concrete runs: every dispatch fails with an
unspecific service error, nothing decodes, storage writes succeed. -/
def baseEnv : Env :=
  { net := fun _ _ => .error (.service (.other "unknown")),
    parseAuthInfo := fun _ => none,
    parseProfile := fun _ => none,
    decodeJWT := fun _ => none,
    storageOk := true,
    deviceInfo := "device",
    sessionRoute := "session",
    profileRoute := "profile",
    loginRoute := fun p => String.append "login/" p,
    linkRoute := fun p => String.append "link/" p,
    now := 100 }

/-- A concrete logged-in `AuthInfo` for witnesses. -/
def sampleInfo : AuthInfo :=
  ⟨some "u1", some "d1", some "a1", some "r1", some "anon-user",
   some "anon-user", none⟩

/-- The user materialized from `sampleInfo`. -/
def sampleUser : StitchUser :=
  makeUser (some "u1") (some "anon-user") (some "anon-user") none

/-- A concrete logged-in state for witnesses. -/
def sampleState : AuthState :=
  { authInfo := sampleInfo, currentUser := some sampleUser, trace := [] }

/-- Witness for the retry-bound theorem at a concrete environment in
which every dispatch reports an invalid session. -/
theorem doAuthenticatedRequest_retry_bound_witness :
    countRefreshes (doAuthenticatedRequest
        { baseEnv with net := fun _ _ => .error (.service .invalidSession) }
        ⟨.GET, "x", false, true, 5, none⟩ sampleState).2.trace ≤
      countRefreshes sampleState.trace + 1 :=
  (doAuthenticatedRequest_retry_bound
    { baseEnv with net := fun _ _ => .error (.service .invalidSession) }
    ⟨.GET, "x", false, true, 5, none⟩ sampleState rfl rfl rfl rfl).2.1

/-- Witness for the freshness-check theorem: a token issued at time 10 is
fresh for a request started at time 5, so the check resolves immediately. -/
theorem tryRefreshAccessToken_freshness_witness :
    tryRefreshAccessToken { baseEnv with decodeJWT := fun _ => some 10 }
      5 sampleState = (.ok (), sampleState) :=
  (tryRefreshAccessToken_freshness { baseEnv with decodeJWT := fun _ => some 10 }
    5 sampleState rfl).1 10 rfl (by decide)

/-- C6: from a logged-in state, `logout()` clears local auth state and
persists the cleared state regardless of the session-delete request's
outcome; the network failure itself is never surfaced — the call succeeds
whenever the cleared state persists, and only a persist failure is
reported (as `CouldNotPersistAuthInfo`). -/
theorem logoutInternal_spec (env : Env) (s : AuthState)
    (hl : isLoggedIn s = true) :
    (env.storageOk = true →
      (logoutInternal env s).1 = .ok () ∧
      (logoutInternal env s).2.authInfo = s.authInfo.loggedOut ∧
      (logoutInternal env s).2.currentUser = none ∧
      Event.storageWrite s.authInfo.loggedOut ∈ (logoutInternal env s).2.trace)
    ∧ (env.storageOk = false →
      (logoutInternal env s).1 = .error (.client .couldNotPersistAuthInfo)) := by
  have h := logoutInternal_char env s hl
  exact ⟨h.1, fun hst => (h.2 hst).1⟩

/-- Witness for the logout theorem at the default environment (the
session-delete dispatch fails, yet logout completes with cleared state). -/
theorem logoutInternal_spec_witness :
    (logoutInternal baseEnv sampleState).1 = .ok () ∧
    (logoutInternal baseEnv sampleState).2.authInfo =
      sampleState.authInfo.loggedOut ∧
    (logoutInternal baseEnv sampleState).2.currentUser = none ∧
    Event.storageWrite sampleState.authInfo.loggedOut ∈
      (logoutInternal baseEnv sampleState).2.trace :=
  (logoutInternal_spec baseEnv sampleState rfl).1 rfl

/-- C8: from any logged-out state `logout()` is a no-op that succeeds,
performs no network or storage operation and leaves the state unchanged;
and calling `logout()` twice in sequence leaves the same terminal
`authInfo` and current user as calling it once. -/
theorem logoutInternal_idempotent (env : Env) (s : AuthState) :
    (isLoggedIn s = false → logoutInternal env s = (.ok (), s))
    ∧ (logoutInternal env (logoutInternal env s).2).2.authInfo =
        (logoutInternal env s).2.authInfo
    ∧ (logoutInternal env (logoutInternal env s).2).2.currentUser =
        (logoutInternal env s).2.currentUser := by
  refine ⟨fun h => logoutInternal_noop env s h, ?_⟩
  by_cases hl : isLoggedIn s = true
  · have h := logoutInternal_char env s hl
    by_cases hst : env.storageOk
    · have h1 := h.1 hst
      have hlogout1 : isLoggedIn (logoutInternal env s).2 = false := by
        simp [isLoggedIn, h1.2.2.1]
      rw [logoutInternal_noop env _ hlogout1]
      exact ⟨rfl, rfl⟩
    · have hst' : env.storageOk = false := by simp [hst]
      have h1 := h.2 hst'
      have hlogout1 : isLoggedIn (logoutInternal env s).2 = true := by
        simp [isLoggedIn, h1.2.2.1]
        exact hl
      have h2 := logoutInternal_char env (logoutInternal env s).2 hlogout1
      have h3 := (h2.2 hst')
      constructor
      · rw [h3.2.1, h1.2.1, loggedOut_idem]
      · rw [h3.2.2.1, h1.2.2.1]
  · have hl' : isLoggedIn s = false := by
      cases hh : isLoggedIn s <;> simp_all
    rw [logoutInternal_noop env s hl']
    rw [logoutInternal_noop env s hl']
    exact ⟨rfl, rfl⟩

@[simp] theorem preparedRequest_pushEvents (req : StitchAuthRequest)
    (s : AuthState) (es : List Event) :
    preparedRequest req (pushEvents s es) = preparedRequest req s := rfl

/-- C5 (amended): a refresh that succeeds merges the partial auth info
decoded from the response into the current state and persists it; a
refresh that fails with anything other than an invalid-session response or
a persist failure leaves the in-memory auth state untouched; a refresh
that fails with invalid session clears authentication state. -/
theorem refreshAccessToken_state_effects (env : Env) (s : AuthState)
    (hl : isLoggedIn s = true) :
    ((refreshAccessToken env s).1 = .ok () →
      env.storageOk = true ∧
      ∃ resp pinfo,
        env.net (s.trace ++ [Event.refresh])
          (preparedRequest (sessionRefreshRequest env) s) = .ok resp ∧
        Option.bind resp.body env.parseAuthInfo = some pinfo ∧
        (refreshAccessToken env s).2.authInfo = s.authInfo.merge pinfo ∧
        Event.storageWrite (s.authInfo.merge pinfo) ∈
          (refreshAccessToken env s).2.trace)
    ∧ (∀ e, (refreshAccessToken env s).1 = .error e →
        e ≠ .service .invalidSession → e ≠ .client .couldNotPersistAuthInfo →
        (refreshAccessToken env s).2.authInfo = s.authInfo ∧
        (refreshAccessToken env s).2.currentUser = s.currentUser)
    ∧ ((refreshAccessToken env s).1 = .error (.service .invalidSession) →
        (refreshAccessToken env s).2.authInfo = s.authInfo.loggedOut ∧
        (refreshAccessToken env s).2.currentUser = none) := by
  have hrank : ((sessionRefreshRequest env).useRefreshToken ||
      !(sessionRefreshRequest env).shouldRefreshOnFailure) = true := rfl
  have hl0 : isLoggedIn (pushEvents s [.refresh]) = true := hl
  have hl' : (isLoggedIn (pushEvents s [.refresh]) = false) = False := by
    simp [hl0]
  rw [refreshAccessToken,
    doAuthenticatedRequest_rank0 env (sessionRefreshRequest env)
      (pushEvents s [.refresh]) hrank]
  simp only [hl', if_false, preparedRequest_pushEvents, pushEvents_trace]
  cases hnet : env.net (s.trace ++ [Event.refresh])
      (preparedRequest (sessionRefreshRequest env) s) with
  | ok resp =>
    cases hparse : Option.bind resp.body env.parseAuthInfo with
    | none =>
      refine ⟨fun hok => ?_, fun e herr hne1 hne2 => ?_, fun herr => ?_⟩
      · simp [hparse] at hok
      · simp [hparse, pushEvents]
      · simp [hparse] at herr
    | some pinfo =>
      by_cases hst : env.storageOk
      · refine ⟨fun _ => ?_, fun e herr hne1 hne2 => ?_, fun herr => ?_⟩
        · refine ⟨hst, resp, pinfo, rfl, hparse, ?_, ?_⟩
          · simp [hparse, hst, pushEvents]
          · simp [hparse, hst, pushEvents, List.mem_append]
        · simp [hparse, hst] at herr
        · simp [hparse, hst] at herr
      · have hst' : env.storageOk = false := by simp [hst]
        refine ⟨fun hok => ?_, fun e herr hne1 hne2 => ?_, fun herr => ?_⟩
        · simp [hparse, hst'] at hok
        · simp [hparse, hst'] at herr
          exact absurd herr.symm hne2
        · simp [hparse, hst'] at herr
  | error e0 =>
    by_cases hinv : isInvalidSession e0 = false
    · refine ⟨fun hok => ?_, fun e herr hne1 hne2 => ?_, fun herr => ?_⟩
      · simp [hinv] at hok
      · simp [hinv, pushEvents]
      · simp [hinv] at herr
        rw [herr] at hinv
        simp [isInvalidSession] at hinv
    · have hinv' : isInvalidSession e0 = true := by
        cases hh : isInvalidSession e0 <;> simp_all
      have he0 : e0 = .service .invalidSession := by
        cases e0 with
        | service c => cases c with
          | invalidSession => rfl
          | other code => simp [isInvalidSession] at hinv'
        | client c => simp [isInvalidSession] at hinv'
        | request c => simp [isInvalidSession] at hinv'
      subst he0
      have hclear := clearAuth_loggedIn env
        (pushEvents (pushEvents s [.refresh])
          [.dispatch (preparedRequest (sessionRefreshRequest env) s)]) hl
      by_cases hst : env.storageOk
      · rw [hclear]
        refine ⟨fun hok => ?_, fun e herr hne1 hne2 => ?_, fun herr => ?_⟩
        · simp [hinv', hst] at hok
        · simp [hinv', hst] at herr
          exact absurd herr.symm hne1
        · simp [hinv', hst, pushEvents]
      · have hst' : env.storageOk = false := by simp [hst]
        rw [hclear]
        refine ⟨fun hok => ?_, fun e herr hne1 hne2 => ?_, fun herr => ?_⟩
        · simp [hinv', hst'] at hok
        · simp [hinv', hst'] at herr
          exact absurd herr.symm hne2
        · simp [hinv', hst'] at herr

/-- An environment in which every dispatch reports an invalid session. -/
def invalidSessionEnv : Env :=
  { baseEnv with net := fun _ _ => .error (.service .invalidSession) }

/-- Counterexample to C5 as stated: a refresh that fails (here with an
invalid-session response to the session-route request) does not leave the
in-memory auth state untouched — it clears it. -/
theorem refreshAccessToken_untouched_cex :
    (refreshAccessToken invalidSessionEnv sampleState).1 =
        .error (.service .invalidSession) ∧
      (refreshAccessToken invalidSessionEnv sampleState).2.authInfo ≠
        sampleState.authInfo ∧
      (refreshAccessToken invalidSessionEnv sampleState).2.currentUser = none := by
  rw [refreshAccessToken,
    doAuthenticatedRequest_rank0 invalidSessionEnv
      (sessionRefreshRequest invalidSessionEnv)
      (pushEvents sampleState [.refresh]) rfl]
  exact ⟨rfl, by decide, rfl⟩

/-- Witness for the amended C5 theorem: a refresh failing with an
unspecific service error leaves the in-memory auth state untouched. -/
theorem refreshAccessToken_state_effects_witness :
    (refreshAccessToken baseEnv sampleState).2.authInfo =
        sampleState.authInfo ∧
      (refreshAccessToken baseEnv sampleState).2.currentUser =
        sampleState.currentUser :=
  (refreshAccessToken_state_effects baseEnv sampleState rfl).2.1
    (.service (.other "unknown"))
    (by
      rw [refreshAccessToken,
        doAuthenticatedRequest_rank0 baseEnv (sessionRefreshRequest baseEnv)
          (pushEvents sampleState [.refresh]) rfl]
      rfl)
    (by decide) (by decide)

/-- A state in which being logged out implies the identity and token
fields are clear; preserved by the executor when storage writes succeed. -/
def loggedOutClean (s : AuthState) : Prop :=
  s.currentUser = none →
    s.authInfo.userId = none ∧ s.authInfo.accessToken = none ∧
      s.authInfo.refreshToken = none

theorem loggedOutClean_pushEvents (s : AuthState) (es : List Event)
    (h : loggedOutClean s) : loggedOutClean (pushEvents s es) := h

theorem clearAuth_clean (env : Env) (s : AuthState)
    (hst : env.storageOk = true) (h : loggedOutClean s) :
    loggedOutClean (clearAuth env s).2 := by
  by_cases hl : isLoggedIn s = false
  · rw [clearAuth_loggedOut env s hl]
    exact h
  · have hl' : isLoggedIn s = true := by
      cases hh : isLoggedIn s <;> simp_all
    rw [clearAuth_loggedIn env s hl']
    simp [hst, loggedOutClean, AuthInfo.loggedOut, AuthInfo.empty]

theorem doAuthenticatedRequest_rank0_clean (env : Env)
    (req : StitchAuthRequest) (s : AuthState)
    (hrank : (req.useRefreshToken || !req.shouldRefreshOnFailure) = true)
    (hst : env.storageOk = true) (h : loggedOutClean s) :
    loggedOutClean (doAuthenticatedRequest env req s).2 := by
  rw [doAuthenticatedRequest_rank0 env req s hrank]
  by_cases hl : isLoggedIn s = false
  · simpa [hl] using h
  · have hl' : (isLoggedIn s = false) = False := by simp_all
    simp only [hl', if_false]
    cases hnet : env.net s.trace (preparedRequest req s) with
    | ok resp => exact h
    | error e =>
      by_cases hinv : isInvalidSession e = false
      · simpa [hinv] using h
      · have hinv' : (isInvalidSession e = false) = False := by simp_all
        simp only [hinv', if_false]
        have hc := clearAuth_clean env
          (pushEvents s [.dispatch (preparedRequest req s)]) hst h
        rcases hca : clearAuth env (pushEvents s [.dispatch (preparedRequest req s)])
          with ⟨r, s1⟩
        rw [hca] at hc
        cases r <;> exact hc

theorem doAuthenticatedRequest_rank0_ok (env : Env) (req : StitchAuthRequest)
    (s : AuthState) (resp : Response) (s1 : AuthState)
    (hrank : (req.useRefreshToken || !req.shouldRefreshOnFailure) = true)
    (hda : doAuthenticatedRequest env req s = (.ok resp, s1)) :
    s1 = pushEvents s [.dispatch (preparedRequest req s)] ∧
      isLoggedIn s = true := by
  rw [doAuthenticatedRequest_rank0 env req s hrank] at hda
  by_cases hl : isLoggedIn s = false
  · rw [if_pos hl] at hda
    simp at hda
  · have hl2 : isLoggedIn s = true := by
      cases hh : isLoggedIn s <;> simp_all
    rw [if_neg hl] at hda
    refine ⟨?_, hl2⟩
    cases hnet : env.net s.trace (preparedRequest req s) with
    | ok r2 =>
      rw [hnet] at hda
      simp only [Prod.mk.injEq] at hda
      exact hda.2.symm
    | error e =>
      rw [hnet] at hda
      by_cases hinv : isInvalidSession e = false
      · simp [hinv] at hda
      · rcases hca : clearAuth env (pushEvents s [.dispatch (preparedRequest req s)])
          with ⟨rc, sc⟩
        cases rc <;> simp [hinv, hca] at hda

theorem refreshAccessToken_clean (env : Env) (s : AuthState)
    (hst : env.storageOk = true) (h : loggedOutClean s) :
    loggedOutClean (refreshAccessToken env s).2 := by
  rw [refreshAccessToken]
  have hd := doAuthenticatedRequest_rank0_clean env (sessionRefreshRequest env)
    (pushEvents s [.refresh]) rfl hst h
  rcases hda : doAuthenticatedRequest env (sessionRefreshRequest env)
      (pushEvents s [.refresh]) with ⟨r, s1⟩
  rw [hda] at hd
  cases r with
  | error e => exact hd
  | ok resp =>
    cases hp : resp.body.bind env.parseAuthInfo with
    | none =>
      simp only [hp]
      exact hd
    | some pinfo =>
      obtain ⟨hs1, hlin⟩ := doAuthenticatedRequest_rank0_ok env
        (sessionRefreshRequest env) (pushEvents s [.refresh]) resp s1 rfl hda
      simp only [hp, hst, if_true]
      intro hnone
      exfalso
      have hcu : s1.currentUser = s.currentUser := by
        rw [hs1]
        rfl
      have hs : s.currentUser = none := by
        rw [← hcu]
        exact hnone
      have hlin' : s.currentUser.isSome = true := hlin
      rw [hs] at hlin'
      simp at hlin'

theorem tryRefreshAccessToken_clean (env : Env) (t : Nat) (s : AuthState)
    (hst : env.storageOk = true) (h : loggedOutClean s) :
    loggedOutClean (tryRefreshAccessToken env t s).2 := by
  rw [tryRefreshAccessToken]
  by_cases hl : isLoggedIn s = false
  · simpa [hl] using h
  · have hl' : (isLoggedIn s = false) = False := by simp_all
    simp only [hl', if_false]
    cases hj : s.authInfo.accessToken.bind env.decodeJWT with
    | some issuedAt =>
      by_cases hle : t ≤ issuedAt
      · simpa [hle] using h
      · simpa [hle] using refreshAccessToken_clean env s hst h
    | none => exact refreshAccessToken_clean env s hst h

theorem doAuthenticatedRequest_clean (env : Env) (req : StitchAuthRequest)
    (s : AuthState) (hst : env.storageOk = true) (h : loggedOutClean s) :
    loggedOutClean (doAuthenticatedRequest env req s).2 := by
  by_cases hrank : (req.useRefreshToken || !req.shouldRefreshOnFailure) = true
  · exact doAuthenticatedRequest_rank0_clean env req s hrank hst h
  · have h1 : req.useRefreshToken = false := by
      cases hu : req.useRefreshToken <;> simp_all
    have h2 : req.shouldRefreshOnFailure = true := by
      cases hu : req.shouldRefreshOnFailure <;> simp_all
    rw [doAuthenticatedRequest_rank1 env req s h1 h2]
    by_cases hl : isLoggedIn s = false
    · simpa [hl] using h
    · have hl' : (isLoggedIn s = false) = False := by simp_all
      simp only [hl', if_false]
      cases hnet : env.net s.trace (preparedRequest req s) with
      | ok resp => exact h
      | error e =>
        by_cases hinv : isInvalidSession e = false
        · simpa [hinv] using h
        · have hinv' : (isInvalidSession e = false) = False := by simp_all
          simp only [hinv', if_false]
          have htc := tryRefreshAccessToken_clean env req.startedAt
            (pushEvents s [.dispatch (preparedRequest req s)]) hst h
          rcases htr : tryRefreshAccessToken env req.startedAt
              (pushEvents s [.dispatch (preparedRequest req s)]) with ⟨r, s1⟩
          rw [htr] at htc
          cases r with
          | error e2 => exact htc
          | ok u =>
            exact doAuthenticatedRequest_rank0_clean env
              { req with shouldRefreshOnFailure := false } s1 (by simp) hst htc

/-- Unfolding equation of `processLogin` in terms of the provisional
state, the profile fetch, the commit and the rollback handler. -/
theorem processLogin_eq (env : Env) (cred : CredentialInfo)
    (newAuthInfo : AuthInfo) (asLink : Bool) (s : AuthState) :
    processLogin env cred newAuthInfo asLink s =
      match doGetUserProfile env (provisionalState cred newAuthInfo s) with
      | (.error err, s2) =>
        processLoginRollback env asLink s.authInfo s.currentUser err s2
      | (.ok profile, s2) =>
        let ni := provisionalInfo cred newAuthInfo s
        let finalInfo := ni.merge
          ⟨ni.userId, ni.deviceId, ni.accessToken, ni.refreshToken,
           some cred.providerType, some cred.providerName, some profile⟩
        let s3 := pushEvents s2 [.storageWrite finalInfo]
        if env.storageOk then
          let u := makeUser finalInfo.userId (some cred.providerType)
            (some cred.providerName) (some profile)
          (.ok u, { s3 with authInfo := finalInfo, currentUser := some u })
        else
          processLoginRollback env asLink s.authInfo s.currentUser
            (.client .couldNotPersistAuthInfo) s3 := rfl

/-- The profile fetch preserves `loggedOutClean` when storage writes
succeed. -/
theorem doGetUserProfile_clean (env : Env) (s : AuthState)
    (hst : env.storageOk = true) (h : loggedOutClean s) :
    loggedOutClean (doGetUserProfile env s).2 := by
  unfold doGetUserProfile
  have hd := doAuthenticatedRequest_clean env (profileRequest env) s hst h
  rcases hda : doAuthenticatedRequest env (profileRequest env) s with ⟨r, s1⟩
  rw [hda] at hd
  cases r with
  | error e => exact hd
  | ok resp =>
    cases hp : resp.body.bind env.parseProfile with
    | some p =>
      simp only [hp]
      exact hd
    | none =>
      simp only [hp]
      exact hd

/-- The provisional state is always logged in, hence `loggedOutClean`. -/
theorem provisionalState_clean (cred : CredentialInfo)
    (newAuthInfo : AuthInfo) (s : AuthState) :
    loggedOutClean (provisionalState cred newAuthInfo s) := by
  intro hnone
  simp [provisionalState] at hnone

/-- C4: when the profile fetch following a successful login or link
response fails, a link restores the pre-operation `AuthInfo` and current
user exactly and propagates the profile-fetch error; a fresh login (when
persisting the cleared state succeeds) propagates the profile-fetch error
with authentication state fully cleared. -/
theorem processLogin_rollback_spec (env : Env) (cred : CredentialInfo)
    (newAuthInfo : AuthInfo) (s : AuthState) :
    ∀ e, (doGetUserProfile env (provisionalState cred newAuthInfo s)).1 =
        .error e →
      (processLogin env cred newAuthInfo true s =
        (.error e,
         { (doGetUserProfile env (provisionalState cred newAuthInfo s)).2 with
            authInfo := s.authInfo, currentUser := s.currentUser }))
      ∧ (env.storageOk = true →
         (processLogin env cred newAuthInfo false s).1 = .error e ∧
         (processLogin env cred newAuthInfo false s).2.currentUser = none ∧
         (processLogin env cred newAuthInfo false s).2.authInfo.userId = none ∧
         (processLogin env cred newAuthInfo false s).2.authInfo.accessToken
           = none ∧
         (processLogin env cred newAuthInfo false s).2.authInfo.refreshToken
           = none) := by
  intro e herr
  rw [processLogin_eq env cred newAuthInfo true s,
    processLogin_eq env cred newAuthInfo false s]
  rcases hgp : doGetUserProfile env (provisionalState cred newAuthInfo s)
    with ⟨r, s2⟩
  rw [hgp] at herr
  cases r with
  | ok profile => simp at herr
  | error e0 =>
    have he0 : e0 = e := by
      simpa using herr
    subst he0
    constructor
    · simp [processLoginRollback]
    · intro hst
      have hclean : loggedOutClean s2 := by
        have := doGetUserProfile_clean env (provisionalState cred newAuthInfo s)
          hst (provisionalState_clean cred newAuthInfo s)
        rw [hgp] at this
        exact this
      by_cases hl2 : isLoggedIn s2 = false
      · have hcu : s2.currentUser = none := by
          cases hc : s2.currentUser
          · rfl
          · rw [isLoggedIn, hc] at hl2
            simp at hl2
        have hfields := hclean hcu
        have hca := clearAuth_loggedOut env s2 hl2
        simp [processLoginRollback, hca, hcu, hfields.1, hfields.2.1,
          hfields.2.2]
      · have hl2' : isLoggedIn s2 = true := by
          cases hh : isLoggedIn s2 <;> simp_all
        have hca := clearAuth_loggedIn env s2 hl2'
        simp [processLoginRollback, hca, hst, AuthInfo.loggedOut,
          AuthInfo.empty]

theorem clearAuth_trace (env : Env) (s : AuthState) :
    ∃ t, (clearAuth env s).2.trace = s.trace ++ t := by
  by_cases hl : isLoggedIn s = false
  · rw [clearAuth_loggedOut env s hl]
    exact ⟨[], by simp⟩
  · have hl' : isLoggedIn s = true := by
      cases hh : isLoggedIn s <;> simp_all
    rw [clearAuth_loggedIn env s hl']
    by_cases hst : env.storageOk <;> simp [hst]

theorem doAuthenticatedRequest_rank0_trace (env : Env)
    (req : StitchAuthRequest) (s : AuthState)
    (hrank : (req.useRefreshToken || !req.shouldRefreshOnFailure) = true) :
    ∃ t, (doAuthenticatedRequest env req s).2.trace = s.trace ++ t := by
  rw [doAuthenticatedRequest_rank0 env req s hrank]
  by_cases hl : isLoggedIn s = false
  · exact ⟨[], by simp [hl]⟩
  · have hl' : (isLoggedIn s = false) = False := by simp_all
    simp only [hl', if_false]
    cases hnet : env.net s.trace (preparedRequest req s) with
    | ok resp => exact ⟨[.dispatch (preparedRequest req s)], rfl⟩
    | error e =>
      by_cases hinv : isInvalidSession e = false
      · exact ⟨[.dispatch (preparedRequest req s)], by simp [hinv]⟩
      · have hinv' : (isInvalidSession e = false) = False := by simp_all
        simp only [hinv', if_false]
        obtain ⟨t, ht⟩ := clearAuth_trace env
          (pushEvents s [.dispatch (preparedRequest req s)])
        rcases hca : clearAuth env (pushEvents s [.dispatch (preparedRequest req s)])
          with ⟨rc, sc⟩
        rw [hca] at ht
        cases rc <;> exact ⟨[.dispatch (preparedRequest req s)] ++ t,
          by simpa [List.append_assoc] using ht⟩

theorem refreshAccessToken_trace (env : Env) (s : AuthState) :
    ∃ t, (refreshAccessToken env s).2.trace = s.trace ++ t := by
  rw [refreshAccessToken]
  obtain ⟨t, ht⟩ := doAuthenticatedRequest_rank0_trace env
    (sessionRefreshRequest env) (pushEvents s [.refresh]) rfl
  rcases hda : doAuthenticatedRequest env (sessionRefreshRequest env)
      (pushEvents s [.refresh]) with ⟨r, s1⟩
  rw [hda] at ht
  simp only [pushEvents_trace] at ht
  cases r with
  | error e => exact ⟨[Event.refresh] ++ t, by simpa [List.append_assoc] using ht⟩
  | ok resp =>
    cases hp : resp.body.bind env.parseAuthInfo with
    | none =>
      simp only [hp]
      exact ⟨[Event.refresh] ++ t, by simpa [List.append_assoc] using ht⟩
    | some pinfo =>
      simp only [hp]
      by_cases hst : env.storageOk = true
      · simp only [hst, if_true]
        exact ⟨[Event.refresh] ++ t ++ [.storageWrite (s1.authInfo.merge pinfo)],
          by simp [pushEvents, ht, List.append_assoc]⟩
      · have hst' : (env.storageOk = true) = False := by simp_all
        simp only [hst', if_false]
        exact ⟨[Event.refresh] ++ t ++ [.storageWrite (s1.authInfo.merge pinfo)],
          by simp [pushEvents, ht, List.append_assoc]⟩

theorem tryRefreshAccessToken_trace (env : Env) (t0 : Nat) (s : AuthState) :
    ∃ t, (tryRefreshAccessToken env t0 s).2.trace = s.trace ++ t := by
  rw [tryRefreshAccessToken]
  by_cases hl : isLoggedIn s = false
  · exact ⟨[], by simp [hl]⟩
  · have hl' : (isLoggedIn s = false) = False := by simp_all
    simp only [hl', if_false]
    cases hj : s.authInfo.accessToken.bind env.decodeJWT with
    | some issuedAt =>
      by_cases hle : t0 ≤ issuedAt
      · exact ⟨[], by simp [hle]⟩
      · simpa [hle] using refreshAccessToken_trace env s
    | none => exact refreshAccessToken_trace env s

/-- A retriable authenticated request from a logged-in state always
dispatches the prepared request first; everything later only appends. -/
theorem doAuthenticatedRequest_rank1_trace (env : Env)
    (req : StitchAuthRequest) (s : AuthState)
    (h1 : req.useRefreshToken = false) (h2 : req.shouldRefreshOnFailure = true)
    (hl : isLoggedIn s = true) :
    ∃ rest, (doAuthenticatedRequest env req s).2.trace =
      s.trace ++ [.dispatch (preparedRequest req s)] ++ rest := by
  rw [doAuthenticatedRequest_rank1 env req s h1 h2]
  have hl' : (isLoggedIn s = false) = False := by simp [hl]
  simp only [hl', if_false]
  cases hnet : env.net s.trace (preparedRequest req s) with
  | ok resp => exact ⟨[], by simp⟩
  | error e =>
    by_cases hinv : isInvalidSession e = false
    · exact ⟨[], by simp [hinv]⟩
    · have hinv' : (isInvalidSession e = false) = False := by simp_all
      simp only [hinv', if_false]
      obtain ⟨t1, ht1⟩ := tryRefreshAccessToken_trace env req.startedAt
        (pushEvents s [.dispatch (preparedRequest req s)])
      rcases htr : tryRefreshAccessToken env req.startedAt
          (pushEvents s [.dispatch (preparedRequest req s)]) with ⟨r, s1⟩
      rw [htr] at ht1
      simp only [pushEvents_trace] at ht1
      cases r with
      | error e2 => exact ⟨t1, by simpa [List.append_assoc] using ht1⟩
      | ok u =>
        obtain ⟨t2, ht2⟩ := doAuthenticatedRequest_rank0_trace env
          { req with shouldRefreshOnFailure := false } s1 (by simp)
        refine ⟨t1 ++ t2, ?_⟩
        rw [ht2, ht1]
        simp [List.append_assoc]

theorem doAuthenticatedRequest_trace (env : Env) (req : StitchAuthRequest)
    (s : AuthState) :
    ∃ t, (doAuthenticatedRequest env req s).2.trace = s.trace ++ t := by
  by_cases hrank : (req.useRefreshToken || !req.shouldRefreshOnFailure) = true
  · exact doAuthenticatedRequest_rank0_trace env req s hrank
  · have h1 : req.useRefreshToken = false := by
      cases hu : req.useRefreshToken <;> simp_all
    have h2 : req.shouldRefreshOnFailure = true := by
      cases hu : req.shouldRefreshOnFailure <;> simp_all
    by_cases hl : isLoggedIn s = true
    · obtain ⟨rest, hr⟩ := doAuthenticatedRequest_rank1_trace env req s h1 h2 hl
      exact ⟨[.dispatch (preparedRequest req s)] ++ rest,
        by simpa [List.append_assoc] using hr⟩
    · have hl' : isLoggedIn s = false := by
        cases hh : isLoggedIn s <;> simp_all
      rw [doAuthenticatedRequest_rank1 env req s h1 h2]
      exact ⟨[], by simp [hl']⟩

theorem doGetUserProfile_trace (env : Env) (s : AuthState) :
    ∃ t, (doGetUserProfile env s).2.trace = s.trace ++ t := by
  unfold doGetUserProfile
  obtain ⟨t, ht⟩ := doAuthenticatedRequest_trace env (profileRequest env) s
  rcases hda : doAuthenticatedRequest env (profileRequest env) s with ⟨r, s1⟩
  rw [hda] at ht
  cases r with
  | error e => exact ⟨t, ht⟩
  | ok resp =>
    cases hp : resp.body.bind env.parseProfile with
    | some p => exact ⟨t, by simpa [hp] using ht⟩
    | none => exact ⟨t, by simpa [hp] using ht⟩

theorem processLoginRollback_trace (env : Env) (asLink : Bool)
    (oldInfo : AuthInfo) (oldUser : Option StitchUser) (err : StitchErr)
    (s : AuthState) :
    ∃ t, (processLoginRollback env asLink oldInfo oldUser err s).2.trace =
      s.trace ++ t := by
  unfold processLoginRollback
  by_cases ha : asLink = true
  · exact ⟨[], by simp [ha]⟩
  · have ha' : (asLink = true) = False := by simp_all
    simp only [ha', if_false]
    obtain ⟨t, ht⟩ := clearAuth_trace env s
    rcases hca : clearAuth env s with ⟨rc, sc⟩
    rw [hca] at ht
    cases rc <;> exact ⟨t, ht⟩

theorem processLogin_trace (env : Env) (cred : CredentialInfo)
    (newAuthInfo : AuthInfo) (asLink : Bool) (s : AuthState) :
    ∃ t, (processLogin env cred newAuthInfo asLink s).2.trace =
      s.trace ++ t := by
  rw [processLogin_eq]
  have hpt : (provisionalState cred newAuthInfo s).trace = s.trace := rfl
  obtain ⟨t, ht⟩ := doGetUserProfile_trace env
    (provisionalState cred newAuthInfo s)
  rw [hpt] at ht
  rcases hgp : doGetUserProfile env (provisionalState cred newAuthInfo s)
    with ⟨r, s2⟩
  rw [hgp] at ht
  cases r with
  | error err =>
    obtain ⟨t2, ht2⟩ := processLoginRollback_trace env asLink s.authInfo
      s.currentUser err s2
    exact ⟨t ++ t2, by rw [ht2, ht]; simp [List.append_assoc]⟩
  | ok profile =>
    have hs2 : s2.trace = s.trace ++ t := ht
    set fi : AuthInfo := (provisionalInfo cred newAuthInfo s).merge
      ⟨(provisionalInfo cred newAuthInfo s).userId,
       (provisionalInfo cred newAuthInfo s).deviceId,
       (provisionalInfo cred newAuthInfo s).accessToken,
       (provisionalInfo cred newAuthInfo s).refreshToken,
       some cred.providerType, some cred.providerName, some profile⟩ with hfi
    by_cases hst : env.storageOk = true
    · simp only [hst, if_true]
      exact ⟨t ++ [.storageWrite fi],
        by simp [pushEvents, hs2, List.append_assoc]⟩
    · have hst' : (env.storageOk = true) = False := by simp_all
      simp only [hst', if_false]
      obtain ⟨t2, ht2⟩ := processLoginRollback_trace env asLink s.authInfo
        s.currentUser (.client .couldNotPersistAuthInfo)
        (pushEvents s2 [.storageWrite fi])
      refine ⟨t ++ [.storageWrite fi] ++ t2, ?_⟩
      rw [ht2]
      simp [pushEvents, hs2, List.append_assoc]

theorem processLoginResponse_trace (env : Env) (cred : CredentialInfo)
    (response : Response) (asLink : Bool) (s : AuthState) :
    ∃ t, (processLoginResponse env cred response asLink s).2.trace =
      s.trace ++ t := by
  unfold processLoginResponse
  cases hp : response.body.bind env.parseAuthInfo with
  | none => exact ⟨[], by simp⟩
  | some info => exact processLogin_trace env cred info asLink s

theorem doLogin_trace_link (env : Env) (cred : CredentialInfo)
    (s : AuthState) (hl : isLoggedIn s = true) :
    ∃ rest, (doLogin env cred true s).2.trace =
      s.trace ++ [.dispatch (preparedRequest (linkRequest env cred) s)] ++ rest := by
  unfold doLogin doLoginRequest
  simp only [if_true]
  obtain ⟨rest1, h1⟩ := doAuthenticatedRequest_rank1_trace env
    (linkRequest env cred) s rfl rfl hl
  rcases hda : doAuthenticatedRequest env (linkRequest env cred) s with ⟨r, s1⟩
  rw [hda] at h1
  cases r with
  | error e => exact ⟨rest1, h1⟩
  | ok resp =>
    obtain ⟨t2, h2⟩ := processLoginResponse_trace env cred resp true s1
    have h1' : s1.trace =
        s.trace ++ [Event.dispatch (preparedRequest (linkRequest env cred) s)]
          ++ rest1 := h1
    rcases hpr : processLoginResponse env cred resp true s1 with ⟨r2, s2⟩
    rw [hpr] at h2
    have h2' : s2.trace = s1.trace ++ t2 := h2
    cases r2 with
    | error e =>
      refine ⟨rest1 ++ t2, ?_⟩
      simp [hpr, h2', h1', List.append_assoc]
    | ok u =>
      refine ⟨rest1 ++ t2 ++ [.authEvent], ?_⟩
      simp [hpr, pushEvents, h2', h1', List.append_assoc]

/-- A concrete ordinary credential for witnesses. -/
def cred0 : CredentialInfo :=
  ⟨"anon-user", "anon-user", "material", false⟩

/-- A concrete server-issued auth info for witnesses. -/
def info0 : AuthInfo :=
  ⟨some "u2", some "d2", some "a2", some "r2", none, none, none⟩

/-- A user distinct from `sampleUser`, for the mismatch witness. -/
def otherUser : StitchUser :=
  makeUser (some "u9") (some "anon-user") (some "anon-user") none

/-- Witness for the C4 rollback theorem: with the default environment the
profile fetch fails with an unspecific service error and a fresh login is
fully cleared with that error propagated. -/
theorem processLogin_rollback_spec_witness :
    (processLogin baseEnv cred0 info0 false sampleState).1 =
        .error (.service (.other "unknown")) ∧
      (processLogin baseEnv cred0 info0 false sampleState).2.currentUser =
        none ∧
      (processLogin baseEnv cred0 info0 false sampleState).2.authInfo.userId =
        none ∧
      (processLogin baseEnv cred0 info0 false
        sampleState).2.authInfo.accessToken = none ∧
      (processLogin baseEnv cred0 info0 false
        sampleState).2.authInfo.refreshToken = none :=
  (processLogin_rollback_spec baseEnv cred0 info0 sampleState
    (.service (.other "unknown"))
    (by
      unfold doGetUserProfile
      rw [doAuthenticatedRequest_rank1 baseEnv (profileRequest baseEnv)
        (provisionalState cred0 info0 sampleState) rfl rfl]
      rfl)).2 rfl

/-- C7: `linkWithCredential` fails with `UserNoLongerValid`, leaving the
state untouched, when the supplied user's id differs from the current
user's id; otherwise it performs the login flagged as a link, whose first
effect is dispatching a request to the provider's link route carrying the
current session's access token in the Authorization header. -/
theorem linkUserWithCredentialInternal_spec (env : Env) (user : StitchUser)
    (credential : StitchCredential) (s : AuthState) (cu : StitchUser)
    (hcu : s.currentUser = some cu) :
    (user.id ≠ cu.id →
      linkUserWithCredentialInternal env user credential s =
        (.error (.client .userNoLongerValid), s))
    ∧ (user.id = cu.id →
      linkUserWithCredentialInternal env user credential s =
        doLogin env credential.info true s ∧
      preparedRequest (linkRequest env credential.info) s =
        { method := .POST,
          path := env.linkRoute credential.info.providerName,
          authHeader := s.authInfo.accessToken,
          body := some (loginBody env credential.info) } ∧
      ∃ rest, (doLogin env credential.info true s).2.trace =
        s.trace ++
          [.dispatch (preparedRequest (linkRequest env credential.info) s)]
          ++ rest) := by
  have hl : isLoggedIn s = true := by
    rw [isLoggedIn, hcu]
    rfl
  constructor
  · intro hne
    unfold linkUserWithCredentialInternal
    rw [hcu]
    simp [hne]
  · intro heq
    refine ⟨?_, rfl, doLogin_trace_link env credential.info s hl⟩
    unfold linkUserWithCredentialInternal
    rw [hcu]
    simp [heq]

/-- Witness for the link theorem: a user whose id differs from the
current user's id is rejected with `UserNoLongerValid`. -/
theorem linkUserWithCredentialInternal_spec_witness :
    linkUserWithCredentialInternal baseEnv otherUser (.ordinary cred0)
      sampleState = (.error (.client .userNoLongerValid), sampleState) :=
  (linkUserWithCredentialInternal_spec baseEnv otherUser (.ordinary cred0)
    sampleState sampleUser rfl).1 (by decide)

/-- C9: while logged in, a credential that reuses the existing session
for the same provider type returns the current user with no effect at
all (no network request, state unchanged); any other ordinary credential
logs out the current session first and then performs a full login. -/
theorem loginWithCredentialInternal_spec (env : Env) (info : CredentialInfo)
    (s : AuthState) (cu : StitchUser) (hcu : s.currentUser = some cu) :
    (info.reusesExistingSession = true →
      some info.providerType = cu.loggedInProviderType →
      loginWithCredentialInternal env (.ordinary info) s = (.ok cu, s))
    ∧ (¬(info.reusesExistingSession = true ∧
          some info.providerType = cu.loggedInProviderType) →
      loginWithCredentialInternal env (.ordinary info) s =
        doLogin env info false (logoutInternal env s).2) := by
  have hl : isLoggedIn s = true := by
    rw [isLoggedIn, hcu]
    rfl
  have hl' : (isLoggedIn s = false) = False := by simp [hl]
  constructor
  · intro hr hp
    unfold loginWithCredentialInternal
    rw [hcu]
    simp [hl', hr, ← hp]
  · intro hn
    have hcond : (info.reusesExistingSession &&
        (some info.providerType == cu.loggedInProviderType)) = false := by
      cases hr : info.reusesExistingSession with
      | false => simp
      | true =>
        simp only [Bool.true_and]
        by_cases hp : some info.providerType = cu.loggedInProviderType
        · exact absurd ⟨hr, hp⟩ hn
        · simp [hp]
    unfold loginWithCredentialInternal
    rw [hcu]
    simp [hl', hcond]

/-- Witness for the session-reuse theorem: an anonymous-style credential
that reuses the session for the logged-in provider type returns the
current user unchanged. -/
theorem loginWithCredentialInternal_spec_witness :
    loginWithCredentialInternal baseEnv
      (.ordinary ⟨"anon-user", "anon-user", "material", true⟩) sampleState =
      (.ok sampleUser, sampleState) :=
  (loginWithCredentialInternal_spec baseEnv
    ⟨"anon-user", "anon-user", "material", true⟩ sampleState sampleUser
    rfl).1 rfl rfl

/-- Witness for the logout idempotence theorem: logout on a freshly
constructed empty session is a no-op returning success. -/
theorem logoutInternal_idempotent_witness :
    logoutInternal baseEnv (mkAuth none) = (.ok (), mkAuth none) :=
  (logoutInternal_idempotent baseEnv (mkAuth none)).1 rfl

theorem orOld_isSome (a b : Option String) :
    (orOld a b).isSome = (a.isSome || b.isSome) := by
  cases a <;> simp [orOld]

theorem authInv_mkAuth (stored : Option AuthInfo) : authInv (mkAuth stored) := by
  unfold mkAuth prepUser authInv
  cases hs : (stored.getD AuthInfo.empty).userId <;> simp [hs]

theorem clearAuth_authInv (env : Env) (s : AuthState)
    (hst : env.storageOk = true) (h : authInv s) :
    authInv (clearAuth env s).2 := by
  by_cases hl : isLoggedIn s = false
  · rw [clearAuth_loggedOut env s hl]
    exact h
  · have hl' : isLoggedIn s = true := by
      cases hh : isLoggedIn s <;> simp_all
    rw [clearAuth_loggedIn env s hl']
    simp [hst, authInv, AuthInfo.loggedOut, AuthInfo.empty]

theorem doAuthenticatedRequest_rank0_authInv (env : Env)
    (req : StitchAuthRequest) (s : AuthState)
    (hrank : (req.useRefreshToken || !req.shouldRefreshOnFailure) = true)
    (hst : env.storageOk = true) (h : authInv s) :
    authInv (doAuthenticatedRequest env req s).2 := by
  rw [doAuthenticatedRequest_rank0 env req s hrank]
  by_cases hl : isLoggedIn s = false
  · simpa [hl] using h
  · have hl' : (isLoggedIn s = false) = False := by simp_all
    simp only [hl', if_false]
    cases hnet : env.net s.trace (preparedRequest req s) with
    | ok resp => exact h
    | error e =>
      by_cases hinv : isInvalidSession e = false
      · simpa [hinv] using h
      · have hinv' : (isInvalidSession e = false) = False := by simp_all
        simp only [hinv', if_false]
        have hc := clearAuth_authInv env
          (pushEvents s [.dispatch (preparedRequest req s)]) hst h
        rcases hca : clearAuth env (pushEvents s [.dispatch (preparedRequest req s)])
          with ⟨r, s1⟩
        rw [hca] at hc
        cases r <;> exact hc

theorem refreshAccessToken_authInv (env : Env) (s : AuthState)
    (hst : env.storageOk = true) (h : authInv s) :
    authInv (refreshAccessToken env s).2 := by
  rw [refreshAccessToken]
  have hd := doAuthenticatedRequest_rank0_authInv env (sessionRefreshRequest env)
    (pushEvents s [.refresh]) rfl hst h
  rcases hda : doAuthenticatedRequest env (sessionRefreshRequest env)
      (pushEvents s [.refresh]) with ⟨r, s1⟩
  rw [hda] at hd
  cases r with
  | error e => exact hd
  | ok resp =>
    cases hp : resp.body.bind env.parseAuthInfo with
    | none =>
      simp only [hp]
      exact hd
    | some pinfo =>
      obtain ⟨hs1, hlin⟩ := doAuthenticatedRequest_rank0_ok env
        (sessionRefreshRequest env) (pushEvents s [.refresh]) resp s1 rfl hda
      simp only [hp, hst, if_true]
      have hcu : s1.currentUser = s.currentUser := by
        rw [hs1]
        rfl
      have hai : s1.authInfo = s.authInfo := by
        rw [hs1]
        rfl
      have hsome : s.currentUser.isSome = true := hlin
      have huid : s.authInfo.userId.isSome = true := by
        rw [← h]
        exact hsome
      show s1.currentUser.isSome = (s1.authInfo.merge pinfo).userId.isSome
      rw [hcu, hai, hsome]
      show true = (orOld pinfo.userId s.authInfo.userId).isSome
      rw [orOld_isSome, huid]
      simp

theorem tryRefreshAccessToken_authInv (env : Env) (t : Nat) (s : AuthState)
    (hst : env.storageOk = true) (h : authInv s) :
    authInv (tryRefreshAccessToken env t s).2 := by
  rw [tryRefreshAccessToken]
  by_cases hl : isLoggedIn s = false
  · simpa [hl] using h
  · have hl' : (isLoggedIn s = false) = False := by simp_all
    simp only [hl', if_false]
    cases hj : s.authInfo.accessToken.bind env.decodeJWT with
    | some issuedAt =>
      by_cases hle : t ≤ issuedAt
      · simpa [hle] using h
      · simpa [hle] using refreshAccessToken_authInv env s hst h
    | none => exact refreshAccessToken_authInv env s hst h

theorem doAuthenticatedRequest_authInv (env : Env) (req : StitchAuthRequest)
    (s : AuthState) (hst : env.storageOk = true) (h : authInv s) :
    authInv (doAuthenticatedRequest env req s).2 := by
  by_cases hrank : (req.useRefreshToken || !req.shouldRefreshOnFailure) = true
  · exact doAuthenticatedRequest_rank0_authInv env req s hrank hst h
  · have h1 : req.useRefreshToken = false := by
      cases hu : req.useRefreshToken <;> simp_all
    have h2 : req.shouldRefreshOnFailure = true := by
      cases hu : req.shouldRefreshOnFailure <;> simp_all
    rw [doAuthenticatedRequest_rank1 env req s h1 h2]
    by_cases hl : isLoggedIn s = false
    · simpa [hl] using h
    · have hl' : (isLoggedIn s = false) = False := by simp_all
      simp only [hl', if_false]
      cases hnet : env.net s.trace (preparedRequest req s) with
      | ok resp => exact h
      | error e =>
        by_cases hinv : isInvalidSession e = false
        · simpa [hinv] using h
        · have hinv' : (isInvalidSession e = false) = False := by simp_all
          simp only [hinv', if_false]
          have htc := tryRefreshAccessToken_authInv env req.startedAt
            (pushEvents s [.dispatch (preparedRequest req s)]) hst h
          rcases htr : tryRefreshAccessToken env req.startedAt
              (pushEvents s [.dispatch (preparedRequest req s)]) with ⟨r, s1⟩
          rw [htr] at htc
          cases r with
          | error e2 => exact htc
          | ok u =>
            exact doAuthenticatedRequest_rank0_authInv env
              { req with shouldRefreshOnFailure := false } s1 (by simp) hst htc

theorem logoutInternal_authInv (env : Env) (s : AuthState)
    (hst : env.storageOk = true) (h : authInv s) :
    authInv (logoutInternal env s).2 := by
  by_cases hl : isLoggedIn s = false
  · rw [logoutInternal_noop env s hl]
    exact h
  · have hl' : isLoggedIn s = true := by
      cases hh : isLoggedIn s <;> simp_all
    have hc := (logoutInternal_char env s hl').1 hst
    unfold authInv
    rw [hc.2.2.1, hc.2.1]
    simp [AuthInfo.loggedOut, AuthInfo.empty]

theorem doGetUserProfile_authInv (env : Env) (s : AuthState)
    (hst : env.storageOk = true) (h : authInv s) :
    authInv (doGetUserProfile env s).2 := by
  unfold doGetUserProfile
  have hd := doAuthenticatedRequest_authInv env (profileRequest env) s hst h
  rcases hda : doAuthenticatedRequest env (profileRequest env) s with ⟨r, s1⟩
  rw [hda] at hd
  cases r with
  | error e => exact hd
  | ok resp =>
    cases hp : resp.body.bind env.parseProfile with
    | some p =>
      simp only [hp]
      exact hd
    | none =>
      simp only [hp]
      exact hd

theorem processLogin_authInv (env : Env) (cred : CredentialInfo)
    (newAuthInfo : AuthInfo) (asLink : Bool) (s : AuthState)
    (hst : env.storageOk = true) (hnew : newAuthInfo.userId.isSome = true)
    (h : authInv s) :
    authInv (processLogin env cred newAuthInfo asLink s).2 := by
  rw [processLogin_eq]
  have hprov : authInv (provisionalState cred newAuthInfo s) := by
    show (some (makeUser (provisionalInfo cred newAuthInfo s).userId
      (some cred.providerType) (some cred.providerName) none)).isSome =
      (provisionalInfo cred newAuthInfo s).userId.isSome
    show true = (orOld newAuthInfo.userId s.authInfo.userId).isSome
    rw [orOld_isSome, hnew]
    simp
  have hgp := doGetUserProfile_authInv env (provisionalState cred newAuthInfo s)
    hst hprov
  rcases hgp' : doGetUserProfile env (provisionalState cred newAuthInfo s)
    with ⟨r, s2⟩
  rw [hgp'] at hgp
  cases r with
  | error err =>
    unfold processLoginRollback
    by_cases ha : asLink = true
    · simp only [ha, if_true]
      exact h
    · have ha' : (asLink = true) = False := by simp_all
      simp only [ha', if_false]
      have hc := clearAuth_authInv env s2 hst hgp
      rcases hca : clearAuth env s2 with ⟨rc, sc⟩
      rw [hca] at hc
      cases rc <;> exact hc
  | ok profile =>
    simp only [hst, if_true]
    show (some (makeUser _ (some cred.providerType) (some cred.providerName)
      (some profile))).isSome = _
    show true = (orOld (orOld newAuthInfo.userId s.authInfo.userId)
      (orOld newAuthInfo.userId s.authInfo.userId)).isSome
    rw [orOld_isSome, orOld_isSome, hnew]
    simp

theorem processLoginResponse_authInv (env : Env) (cred : CredentialInfo)
    (response : Response) (asLink : Bool) (s : AuthState)
    (hst : env.storageOk = true)
    (hparse : ∀ b a, env.parseAuthInfo b = some a → a.userId.isSome = true)
    (h : authInv s) :
    authInv (processLoginResponse env cred response asLink s).2 := by
  unfold processLoginResponse
  cases hp : response.body.bind env.parseAuthInfo with
  | none => exact h
  | some info =>
    have hnew : info.userId.isSome = true := by
      cases hb : response.body with
      | none =>
        rw [hb] at hp
        simp at hp
      | some b =>
        rw [hb] at hp
        exact hparse b info (by simpa using hp)
    exact processLogin_authInv env cred info asLink s hst hnew h

theorem doLogin_authInv (env : Env) (cred : CredentialInfo) (asLink : Bool)
    (s : AuthState) (hst : env.storageOk = true)
    (hparse : ∀ b a, env.parseAuthInfo b = some a → a.userId.isSome = true)
    (h : authInv s) :
    authInv (doLogin env cred asLink s).2 := by
  unfold doLogin
  have hlr : authInv (doLoginRequest env cred asLink s).2 := by
    unfold doLoginRequest
    by_cases ha : asLink = true
    · simp only [ha, if_true]
      exact doAuthenticatedRequest_authInv env (linkRequest env cred) s hst h
    · have ha' : (asLink = true) = False := by simp_all
      simp only [ha', if_false]
      exact h
  rcases hda : doLoginRequest env cred asLink s with ⟨r, s1⟩
  rw [hda] at hlr
  cases r with
  | error e => exact hlr
  | ok resp =>
    have hpr := processLoginResponse_authInv env cred resp asLink s1 hst hparse hlr
    show authInv (match processLoginResponse env cred resp asLink s1 with
      | (Except.error e, s2) => ((Except.error e : Except StitchErr StitchUser), s2)
      | (Except.ok user, s2) => (Except.ok user, pushEvents s2 [Event.authEvent])).2
    rcases hpr' : processLoginResponse env cred resp asLink s1 with ⟨r2, s2⟩
    rw [hpr'] at hpr
    cases r2 with
    | error e => exact hpr
    | ok u => exact hpr

theorem loginWithCredentialInternal_authInv (env : Env)
    (credential : StitchCredential) (s : AuthState)
    (hst : env.storageOk = true)
    (hparse : ∀ b a, env.parseAuthInfo b = some a → a.userId.isSome = true)
    (hcred : ∀ i a l, credential = .response i a l → a.userId.isSome = true)
    (h : authInv s) :
    authInv (loginWithCredentialInternal env credential s).2 := by
  unfold loginWithCredentialInternal
  cases credential with
  | response info ai asLink =>
    exact processLogin_authInv env info ai asLink s hst
      (hcred info ai asLink rfl) h
  | ordinary info =>
    by_cases hl : isLoggedIn s = false
    · simp only [hl, if_true]
      exact doLogin_authInv env info false s hst hparse h
    · have hl' : (isLoggedIn s = false) = False := by simp_all
      simp only [hl', if_false]
      cases hcu : s.currentUser with
      | none => exact doLogin_authInv env info false s hst hparse h
      | some u =>
        by_cases hb : (info.reusesExistingSession &&
            (some info.providerType == u.loggedInProviderType)) = true
        · simp only [hb, if_true]
          exact h
        · have hb' : ((info.reusesExistingSession &&
              (some info.providerType == u.loggedInProviderType)) = true) = False := by
            simp_all
          simp only [hb', if_false]
          exact doLogin_authInv env info false (logoutInternal env s).2 hst hparse
            (logoutInternal_authInv env s hst h)

theorem linkUserWithCredentialInternal_authInv (env : Env) (user : StitchUser)
    (credential : StitchCredential) (s : AuthState)
    (hst : env.storageOk = true)
    (hparse : ∀ b a, env.parseAuthInfo b = some a → a.userId.isSome = true)
    (h : authInv s) :
    authInv (linkUserWithCredentialInternal env user credential s).2 := by
  unfold linkUserWithCredentialInternal
  cases hcu : s.currentUser with
  | none => exact doLogin_authInv env credential.info true s hst hparse h
  | some cu =>
    show authInv (if user.id ≠ cu.id then
        ((Except.error (StitchErr.client ClientErrorCode.userNoLongerValid) :
          Except StitchErr StitchUser), s)
      else doLogin env credential.info true s).2
    by_cases hne : user.id ≠ cu.id
    · rw [if_pos hne]
      exact h
    · rw [if_neg hne]
      exact doLogin_authInv env credential.info true s hst hparse h

/-- One public operation of the session manager, with an arbitrary
environment: login, link, logout, refresh, or an authenticated request
with failure handling. -/
inductive Step : AuthState → AuthState → Prop where
  | login (env : Env) (credential : StitchCredential) (s : AuthState) :
      Step s (loginWithCredentialInternal env credential s).2
  | link (env : Env) (user : StitchUser) (credential : StitchCredential)
      (s : AuthState) :
      Step s (linkUserWithCredentialInternal env user credential s).2
  | logout (env : Env) (s : AuthState) : Step s (logoutInternal env s).2
  | refresh (env : Env) (s : AuthState) : Step s (refreshAccessToken env s).2
  | authReq (env : Env) (req : StitchAuthRequest) (s : AuthState) :
      Step s (doAuthenticatedRequest env req s).2

/-- States reachable from construction by the public operations. -/
inductive Reachable : AuthState → Prop where
  | init (stored : Option AuthInfo) : Reachable (mkAuth stored)
  | step {s s' : AuthState} : Reachable s → Step s s' → Reachable s'

/-- A well-behaved environment: storage writes succeed and every decoded
auth response carries a `userId` (the documented response shape, §6). -/
def GoodEnv (env : Env) : Prop :=
  env.storageOk = true ∧
    ∀ b a, env.parseAuthInfo b = some a → a.userId.isSome = true

/-- A credential whose server-issued auth info (if any) carries a
`userId`. -/
def CredOk : StitchCredential → Prop
  | .ordinary _ => True
  | .response _ a _ => a.userId.isSome = true

/-- A public operation run against a well-behaved environment. -/
inductive GoodStep : AuthState → AuthState → Prop where
  | login (env : Env) (credential : StitchCredential) (s : AuthState) :
      GoodEnv env → CredOk credential →
      GoodStep s (loginWithCredentialInternal env credential s).2
  | link (env : Env) (user : StitchUser) (credential : StitchCredential)
      (s : AuthState) : GoodEnv env →
      GoodStep s (linkUserWithCredentialInternal env user credential s).2
  | logout (env : Env) (s : AuthState) : GoodEnv env →
      GoodStep s (logoutInternal env s).2
  | refresh (env : Env) (s : AuthState) : GoodEnv env →
      GoodStep s (refreshAccessToken env s).2
  | authReq (env : Env) (req : StitchAuthRequest) (s : AuthState) :
      GoodEnv env → GoodStep s (doAuthenticatedRequest env req s).2

/-- States reachable from construction under well-behaved environments. -/
inductive ReachableGood : AuthState → Prop where
  | init (stored : Option AuthInfo) : ReachableGood (mkAuth stored)
  | step {s s' : AuthState} : ReachableGood s → GoodStep s s' →
      ReachableGood s'

theorem authInv_of_goodStep {s s' : AuthState} (hstep : GoodStep s s')
    (h : authInv s) : authInv s' := by
  cases hstep with
  | login env credential s hg hc =>
    refine loginWithCredentialInternal_authInv env credential s hg.1 hg.2
      ?_ h
    intro i a l heq
    rw [heq] at hc
    exact hc
  | link env user credential s hg =>
    exact linkUserWithCredentialInternal_authInv env user credential s
      hg.1 hg.2 h
  | logout env s hg => exact logoutInternal_authInv env s hg.1 h
  | refresh env s hg => exact refreshAccessToken_authInv env s hg.1 h
  | authReq env req s hg => exact doAuthenticatedRequest_authInv env req s hg.1 h

theorem authInv_reachableGood {s : AuthState} (h : ReachableGood s) :
    authInv s := by
  induction h with
  | init stored => exact authInv_mkAuth stored
  | step _ hstep ih => exact authInv_of_goodStep hstep ih

/-- Counterexample to C2 as stated: a state reachable by a single
`logout()` whose storage write fails has a defined current user (so
`isLoggedIn` holds) while `authInfo.userId` is undefined — the three-way
equivalence breaks on an operation that ends in an error. -/
theorem authInvariant_cex :
    Reachable (logoutInternal { baseEnv with storageOk := false }
        sampleState).2 ∧
      isLoggedIn (logoutInternal { baseEnv with storageOk := false }
        sampleState).2 = true ∧
      (logoutInternal { baseEnv with storageOk := false }
        sampleState).2.authInfo.userId.isSome = false := by
  have h := (logoutInternal_char { baseEnv with storageOk := false }
    sampleState rfl).2 rfl
  refine ⟨Reachable.step (Reachable.init (some sampleInfo))
    (Step.logout { baseEnv with storageOk := false } sampleState), ?_, ?_⟩
  · rw [isLoggedIn, h.2.2.1]
    rfl
  · rw [h.2.1]
    rfl

/-- C2 (amended): in every state reachable by construction and the public
operations run against environments whose storage writes succeed and
whose auth responses and response credentials carry a `userId`,
`isLoggedIn` holds iff the current user is defined iff
`authInfo.userId` is defined. -/
theorem authInvariant_spec (s : AuthState) (h : ReachableGood s) :
    (isLoggedIn s = true ↔ s.currentUser.isSome = true) ∧
    (isLoggedIn s = true ↔ s.authInfo.userId.isSome = true) ∧
    (s.currentUser.isSome = true ↔ s.authInfo.userId.isSome = true) := by
  have hinv := authInv_reachableGood h
  unfold authInv at hinv
  refine ⟨Iff.rfl, ?_, ?_⟩
  · rw [isLoggedIn, hinv]
  · rw [hinv]

/-- Witness for the amended C2 theorem at a concrete reachable state. -/
theorem authInvariant_spec_witness :
    isLoggedIn (mkAuth (some sampleInfo)) = true ↔
      (mkAuth (some sampleInfo)).authInfo.userId.isSome = true :=
  (authInvariant_spec (mkAuth (some sampleInfo))
    (ReachableGood.init (some sampleInfo))).2.1
